import Mathlib

/-!
# Verification of the energy-center charging manager and regulator family

Shallow embedding of the regulation engine of the octera/energy-center
repository (Go): the charging manager (package charging, manager with the
MQTT-driven update loop and the 1-minute freshness watchdog), the station
model (package models) and the regulator family (package regulation:
PID, Delta-PID, OpenEVSE-style and simple on/off regulators).

Modelling conventions:
* Go float64 values are modelled as rationals; all arithmetic the code
  performs (+, -, *, /, min, max, abs, comparisons) is exact on ℚ.
* math.Exp is abstracted as an explicit function parameter (named rexp)
  wherever the code calls it; theorems that depend on smoothing either
  quantify over rexp or avoid the exp branch exactly as the code does.
* time.Time values are modelled as rational numbers of seconds;
  time.Since(ts) becomes (now - ts); 5*time.Minute is 300.
* The mutex-protected in-place mutation of the station map is modelled by
  threading the list of stations through each operation.  A distribution
  pass iterates over its (sorted, connected) slice of station pointers and
  calls setStationCurrent with each station ID; since every station occurs
  at most once in that slice and IDs are unique, the map lookup inside
  setStationCurrent always finds exactly the station being visited, so the
  pass is modelled as an in-place update of the visited list.
* The opaque DebugInfo map of RegulationOutput is not modelled.
* int64 counters (resetCount and friends) are modelled as ℕ; they only
  ever increment from 0, so overflow never matters.
-/

namespace EnergyCenter

/-! ## models.ChargingStation (internal/models/models.go) -/

/-- models.ChargingStation: identity, connection and charging flags,
current limit, immutable max current, priority, last heartbeat. -/
structure ChargingStation where
  id : String
  isConnected : Bool
  isCharging : Bool
  currentLimit : ℚ
  maxCurrent : ℚ
  priority : ℤ
  lastHeartbeat : ℚ
deriving DecidableEq

/-- models.NewChargingStation: fresh station, disconnected, limit 0. -/
def NewChargingStation (id : String) (priority : ℤ) (maxCurrent : ℚ) :
    ChargingStation :=
  { id := id, isConnected := false, isCharging := false, currentLimit := 0,
    maxCurrent := maxCurrent, priority := priority, lastHeartbeat := 0 }

namespace ChargingStation

/-- models.ChargingStation.SetConnected. -/
def SetConnected (cs : ChargingStation) (connected : Bool) (now : ℚ) :
    ChargingStation :=
  if connected then { cs with isConnected := connected, lastHeartbeat := now }
  else { cs with isConnected := connected }

/-- models.ChargingStation.SetCharging. -/
def SetCharging (cs : ChargingStation) (charging : Bool) : ChargingStation :=
  { cs with isCharging := charging }

/-- models.ChargingStation.SetCurrentLimit: clamps the stored limit to
MaxCurrent. -/
def SetCurrentLimit (cs : ChargingStation) (limit : ℚ) : ChargingStation :=
  if limit > cs.maxCurrent then { cs with currentLimit := cs.maxCurrent }
  else { cs with currentLimit := limit }

end ChargingStation

/-! ## The manager's write primitive (charging.Manager.setStationCurrent) -/

/-- charging.Manager.setStationCurrent, applied to the station the map
lookup found (a missing ID is a no-op and never arises inside a pass).
Returns the updated station and the callback emission, if any.  The
deadband: a requested value within 0.5 A of the stored limit is skipped
with no callback; otherwise SetCurrentLimit stores the (clamped) value and
the callback receives the station ID and the unclamped requested value. -/
def setStationCurrent (cs : ChargingStation) (current : ℚ) :
    ChargingStation × Option (String × ℚ) :=
  if |current - cs.currentLimit| < 1/2 then (cs, none)
  else (cs.SetCurrentLimit current, some (cs.id, current))

/-! ## Distribution passes (internal/charging, event-driven manager) -/

/-- Sum of current limits over a list of stations. -/
def sumLimits (stations : List ChargingStation) : ℚ :=
  (stations.map (fun s => s.currentLimit)).sum

/-- charging.Manager.getCurrentTotalCharging: total limit over stations
that are both connected and charging (over the whole map). -/
def getCurrentTotalCharging (stations : List ChargingStation) : ℚ :=
  (stations.map
    (fun s => if s.isConnected ∧ s.isCharging then s.currentLimit else 0)).sum

/-- charging.Manager.getConnectedStations: connected stations sorted by
ascending priority.  Go uses sort.Slice with the same less function;
insertion sort agrees with it on lists with pairwise distinct priorities. -/
def getConnectedStations (stations : List ChargingStation) :
    List ChargingStation :=
  (stations.filter (fun s => s.isConnected)).insertionSort
    (fun a b => a.priority < b.priority)

/-- charging.Manager.distributeCurrentByPriority, threading the remaining
budget through the visited stations and collecting emitted callbacks. -/
def distributeCurrentByPriority :
    List ChargingStation → ℚ →
      List ChargingStation × List (String × ℚ)
  | [], _ => ([], [])
  | s :: rest, remainingCurrent =>
    if remainingCurrent ≤ 0 then
      let (s2, cb) := setStationCurrent s 0
      let (rest2, cbs) := distributeCurrentByPriority rest remainingCurrent
      (s2 :: rest2, cb.toList ++ cbs)
    else if remainingCurrent < 6 then
      let (s2, cb) := setStationCurrent s 0
      let (rest2, cbs) := distributeCurrentByPriority rest remainingCurrent
      (s2 :: rest2, cb.toList ++ cbs)
    else
      let allocatedCurrent := min remainingCurrent s.maxCurrent
      if allocatedCurrent ≥ 6 then
        let (s2, cb) := setStationCurrent s allocatedCurrent
        let (rest2, cbs) :=
          distributeCurrentByPriority rest (remainingCurrent - allocatedCurrent)
        (s2 :: rest2, cb.toList ++ cbs)
      else
        let (s2, cb) := setStationCurrent s 0
        let (rest2, cbs) := distributeCurrentByPriority rest remainingCurrent
        (s2 :: rest2, cb.toList ++ cbs)

/-- charging.Manager.distributePositiveDelta: walk stations by priority;
a station at 0 A starts only with at least 6 A of budget and headroom, a
charging station is raised within its headroom.  The Go loop breaks as
soon as the remaining budget is ≤ 0, leaving later stations untouched. -/
def distributePositiveDelta :
    List ChargingStation → ℚ →
      List ChargingStation × List (String × ℚ)
  | [], _ => ([], [])
  | s :: rest, remaining =>
    if remaining ≤ 0 then (s :: rest, [])
    else
      let currentLimit := s.currentLimit
      let maxIncrease := s.maxCurrent - currentLimit
      if currentLimit = 0 then
        if remaining ≥ 6 ∧ maxIncrease ≥ 6 then
          let allocation := min remaining maxIncrease
          let (s2, cb) := setStationCurrent s allocation
          let (rest2, cbs) := distributePositiveDelta rest (remaining - allocation)
          (s2 :: rest2, cb.toList ++ cbs)
        else
          let (rest2, cbs) := distributePositiveDelta rest remaining
          (s :: rest2, cbs)
      else if maxIncrease > 0 then
        let allocation := min remaining maxIncrease
        let (s2, cb) := setStationCurrent s (currentLimit + allocation)
        let (rest2, cbs) := distributePositiveDelta rest (remaining - allocation)
        (s2 :: rest2, cb.toList ++ cbs)
      else
        let (rest2, cbs) := distributePositiveDelta rest remaining
        (s :: rest2, cbs)

/-- The per-station body of charging.Manager.distributeNegativeDelta once
the pre-computed charging total is known. -/
def negativeDeltaStep (reductionCurrent totalCharging : ℚ)
    (s : ChargingStation) : ChargingStation × Option (String × ℚ) :=
  if s.currentLimit > 0 then
    let reduction := reductionCurrent * (s.currentLimit / totalCharging)
    let newLimit0 := max 0 (s.currentLimit - reduction)
    let newLimit := if newLimit0 < 6 ∧ newLimit0 > 0 then 0 else newLimit0
    setStationCurrent s newLimit
  else (s, none)

/-- charging.Manager.distributeNegativeDelta: proportional reduction,
snapping limits that would fall into (0, 6) to 0. -/
def distributeNegativeDelta (stations : List ChargingStation)
    (reductionCurrent : ℚ) : List ChargingStation × List (String × ℚ) :=
  let totalCharging :=
    (stations.map (fun s => if s.currentLimit > 0 then s.currentLimit else 0)).sum
  if totalCharging = 0 then (stations, [])
  else
    let results := stations.map (negativeDeltaStep reductionCurrent totalCharging)
    (results.map Prod.fst, results.filterMap Prod.snd)

/-- charging.Manager.applyCurrentDelta: deltas below 0.1 A are a no-op;
positive deltas are distributed by priority, negative ones proportionally. -/
def applyCurrentDelta (stations : List ChargingStation) (deltaCurrent : ℚ) :
    List ChargingStation × List (String × ℚ) :=
  if |deltaCurrent| < 1/10 then (stations, [])
  else if deltaCurrent > 0 then distributePositiveDelta stations deltaCurrent
  else distributeNegativeDelta stations (-deltaCurrent)

/-- charging.Manager.stopAllCharging: a 0 write to every station whose
stored limit is positive (the whole map, not just connected stations). -/
def stopAllCharging (stations : List ChargingStation) :
    List ChargingStation × List (String × ℚ) :=
  let results := stations.map (fun s =>
    if s.currentLimit > 0 then setStationCurrent s 0 else (s, none))
  (results.map Prod.fst, results.filterMap Prod.snd)

/-! ## Regulation interface (internal/regulation/interface.go) -/

/-- regulation.RegulationInput: snapshot handed to a regulator. -/
structure RegulationInput where
  gridPower : ℚ
  currentCharging : ℚ
  isOffPeak : Bool
  maxCurrent : ℚ
  maxHousePower : ℚ
  targetPower : ℚ
  timestamp : ℚ
deriving DecidableEq

/-- regulation.RegulationOutput without the opaque DebugInfo map.  The PID
regulator names the boolean IsCharging and leaves DeltaCurrent at its Go
zero value; the delta-mode regulators name it ShouldCharge. -/
structure RegulationOutput where
  targetCurrent : ℚ
  deltaCurrent : ℚ
  shouldCharge : Bool
  reason : String
deriving DecidableEq

/-! ## PID regulator (internal/regulation/pid_regulator.go) -/

/-- regulation.PIDConfig. -/
structure PIDConfig where
  kp : ℚ
  ki : ℚ
  kd : ℚ
  smoothingFactor : ℚ
  maxTimeGap : ℚ
  surplusThreshold : ℚ
  importThreshold : ℚ
deriving DecidableEq

/-- Mutable state of regulation.PIDRegulator. -/
structure PIDState where
  previousError : ℚ
  integralError : ℚ
  currentTarget : ℚ
  smoothedPower : ℚ
  lastUpdate : ℚ
  resetCount : ℕ
deriving DecidableEq

/-- regulation.NewPIDRegulator: zeroed accumulators, lastUpdate = now. -/
def NewPIDRegulator (now : ℚ) : PIDState :=
  { previousError := 0, integralError := 0, currentTarget := 0,
    smoothedPower := 0, lastUpdate := now, resetCount := 0 }

namespace PIDRegulator

/-- PIDRegulator.reset: zero previous error, integral and target and bump
the reset counter; smoothedPower and lastUpdate are left untouched. -/
def reset (p : PIDState) : PIDState :=
  { p with previousError := 0, integralError := 0, currentTarget := 0,
           resetCount := p.resetCount + 1 }

/-- PIDRegulator.updateSmoothedPower: first-sample direct initialisation
when the accumulator is 0 and dt < 1 s, exponential smoothing with
alpha = 1 - exp(-dt/tau) when dt > 0, otherwise direct assignment.
rexp abstracts math.Exp. -/
def updateSmoothedPower (rexp : ℚ → ℚ) (cfg : PIDConfig)
    (currentPower timestamp : ℚ) (p : PIDState) : PIDState :=
  let dt := timestamp - p.lastUpdate
  if p.smoothedPower = 0 ∧ dt < 1 then { p with smoothedPower := currentPower }
  else if dt > 0 then
    let alpha := 1 - rexp (-(dt / cfg.smoothingFactor))
    { p with smoothedPower :=
        alpha * currentPower + (1 - alpha) * p.smoothedPower }
  else { p with smoothedPower := currentPower }

/-- PIDRegulator.calculatePID: integral and derivative update, then either
the bootstrap seeding (error below -SurplusThreshold with a zero target:
target becomes min(-error/230, 10)) or the incremental PID step.  Returns
the new current target together with the updated state. -/
def calculatePID (cfg : PIDConfig) (error dt : ℚ) (p : PIDState) :
    ℚ × PIDState :=
  let p1 := { p with integralError := p.integralError + error * dt }
  let derivative := (error - p1.previousError) / dt
  let pidOutputCurrent := cfg.kp * error / 230 + cfg.ki * p1.integralError / 230
    + cfg.kd * derivative / 230
  let p2 :=
    if error < -cfg.surplusThreshold ∧ p1.currentTarget = 0 then
      { p1 with currentTarget := min (-error / 230) 10 }
    else
      { p1 with currentTarget := p1.currentTarget + pidOutputCurrent }
  let p3 := { p2 with previousError := error }
  (p3.currentTarget, p3)

/-- PIDRegulator.applySafetyChecks: clamp to [0, maxCurrent] zeroing the
integral on either clamp, then the aggressive import reduction
min(error/500, output*0.8) when error exceeds ImportThreshold and the
accumulated target is positive; finally record the result as the target. -/
def applySafetyChecks (cfg : PIDConfig) (pidOutput error maxCurrent : ℚ)
    (p : PIDState) : ℚ × PIDState :=
  let (o1, p1) :=
    if pidOutput < 0 then ((0 : ℚ), { p with integralError := 0 })
    else (pidOutput, p)
  let (o2, p2) :=
    if o1 > maxCurrent then (maxCurrent, { p1 with integralError := 0 })
    else (o1, p1)
  let (o3, p3) :=
    if error > cfg.importThreshold ∧ p2.currentTarget > 0 then
      let reduction := min (error / 500) (o2 * (8/10))
      (max 0 (o2 - reduction), { p2 with integralError := 0 })
    else (o2, p2)
  (o3, { p3 with currentTarget := o3 })

/-- The Reason string of PIDRegulator.calculateOnPeak. -/
def onPeakReason (cfg : PIDConfig) (error : ℚ) : String :=
  if error > cfg.importThreshold then "Grid import detected - reducing charge"
  else if error < -cfg.surplusThreshold then "Surplus solar detected - charging"
  else if error > 0 then "Small import - maintaining charge"
  else "Near equilibrium - maintaining"

/-- The tail of PIDRegulator.calculateOnPeak once the smoothed error and
the effective dt are fixed: PID step, safety checks, lastUpdate record and
result construction. -/
def onPeakFrom (cfg : PIDConfig) (input : RegulationInput) (error dt : ℚ)
    (p : PIDState) : RegulationOutput × PIDState :=
  let (pidOutput, p1) := calculatePID cfg error dt p
  let (safeOutput, p2) := applySafetyChecks cfg pidOutput error input.maxCurrent p1
  let p3 := { p2 with lastUpdate := input.timestamp }
  ({ targetCurrent := safeOutput, deltaCurrent := 0,
     shouldCharge := safeOutput > 6, reason := onPeakReason cfg error }, p3)

/-- PIDRegulator.calculateOnPeak: smoothing update, PID error, time delta
with the large-gap reset (dt becomes 1) and the non-positive-dt fallback
(dt becomes 1), then the PID tail. -/
def calculateOnPeak (rexp : ℚ → ℚ) (cfg : PIDConfig)
    (input : RegulationInput) (p : PIDState) : RegulationOutput × PIDState :=
  let p0 := updateSmoothedPower rexp cfg input.gridPower input.timestamp p
  let error := p0.smoothedPower - input.targetPower
  let dt0 := input.timestamp - p0.lastUpdate
  let (p1, dt1) := if dt0 > cfg.maxTimeGap then (reset p0, (1 : ℚ)) else (p0, dt0)
  let dt := if dt1 ≤ 0 then (1 : ℚ) else dt1
  onPeakFrom cfg input error dt p1

/-- PIDRegulator.calculateOffPeak: available current is MaxHousePower/230
clamped to MaxCurrent; charge exactly above the 6 A minimum.  The state is
not touched. -/
def calculateOffPeak (input : RegulationInput) : RegulationOutput :=
  let availablePower := input.maxHousePower
  let availableCurrent0 := availablePower / 230
  let availableCurrent :=
    if availableCurrent0 > input.maxCurrent then input.maxCurrent
    else availableCurrent0
  { targetCurrent := availableCurrent, deltaCurrent := 0,
    shouldCharge := availableCurrent > 6,
    reason := "Off-peak mode - maximum charging" }

/-- PIDRegulator.Calculate: off-peak branch or on-peak PID regulation. -/
def Calculate (rexp : ℚ → ℚ) (cfg : PIDConfig) (input : RegulationInput)
    (p : PIDState) : RegulationOutput × PIDState :=
  if input.isOffPeak then (calculateOffPeak input, p)
  else calculateOnPeak rexp cfg input p

end PIDRegulator

/-! ## Delta-PID regulator (regulation/delta_regulator.go) -/

/-- regulation.DeltaPIDConfig. -/
structure DeltaPIDConfig where
  kp : ℚ
  ki : ℚ
  kd : ℚ
  smoothingFactor : ℚ
  maxTimeGap : ℚ
  surplusThreshold : ℚ
  importThreshold : ℚ
  maxDeltaPerStep : ℚ
deriving DecidableEq

/-- Mutable state of regulation.DeltaRegulator (no stateful target). -/
structure DeltaState where
  previousError : ℚ
  integralError : ℚ
  smoothedPower : ℚ
  lastUpdate : ℚ
  resetCount : ℕ
deriving DecidableEq

/-- regulation.NewDeltaRegulator. -/
def NewDeltaRegulator (now : ℚ) : DeltaState :=
  { previousError := 0, integralError := 0, smoothedPower := 0,
    lastUpdate := now, resetCount := 0 }

/-- The DeltaPIDConfig the factory builds for the manager's default
regulator (regulation.CreateRegulator, case DeltaPIDRegulation). -/
def deltaPIDFactoryConfig (kp ki kd smoothingFactor : ℚ) : DeltaPIDConfig :=
  { kp := kp, ki := ki, kd := kd, smoothingFactor := smoothingFactor,
    maxTimeGap := 60, surplusThreshold := 200, importThreshold := 100,
    maxDeltaPerStep := 5 }

/-- The delta clamp the Go code writes as two sequential ifs
(exceeding ±MaxDeltaPerStep is cut to the bound): used both by
DeltaRegulator.calculateOffPeak and DeltaRegulator.applySafetyLimits. -/
def clampDelta (maxDeltaPerStep deltaCurrent : ℚ) : ℚ :=
  if deltaCurrent > maxDeltaPerStep then maxDeltaPerStep
  else if deltaCurrent < -maxDeltaPerStep then -maxDeltaPerStep
  else deltaCurrent

namespace DeltaRegulator

/-- DeltaRegulator.reset: zero previous error and integral and bump the
reset counter; smoothedPower and lastUpdate are left untouched. -/
def reset (d : DeltaState) : DeltaState :=
  { d with previousError := 0, integralError := 0,
           resetCount := d.resetCount + 1 }

/-- DeltaRegulator.updateSmoothedPower (same shape as the PID variant). -/
def updateSmoothedPower (rexp : ℚ → ℚ) (cfg : DeltaPIDConfig)
    (currentPower timestamp : ℚ) (d : DeltaState) : DeltaState :=
  let dt := timestamp - d.lastUpdate
  if d.smoothedPower = 0 ∧ dt < 1 then { d with smoothedPower := currentPower }
  else if dt > 0 then
    let alpha := 1 - rexp (-(dt / cfg.smoothingFactor))
    { d with smoothedPower :=
        alpha * currentPower + (1 - alpha) * d.smoothedPower }
  else { d with smoothedPower := currentPower }

/-- DeltaRegulator.calculatePIDDelta: integral and derivative update; the
PID expression is itself the emitted delta. -/
def calculatePIDDelta (cfg : DeltaPIDConfig) (error dt : ℚ) (d : DeltaState) :
    ℚ × DeltaState :=
  let d1 := { d with integralError := d.integralError + error * dt }
  let derivative := (error - d1.previousError) / dt
  let deltaCurrent := cfg.kp * error / 230 + cfg.ki * d1.integralError / 230
    + cfg.kd * derivative / 230
  (deltaCurrent, { d1 with previousError := error })

/-- DeltaRegulator.applySafetyLimits: clamp the delta to
±MaxDeltaPerStep; then, testing the projected current computed BEFORE any
reassignment, clamp so the projected current is 0 (below) or MaxCurrent
(above), zeroing the integral; finally the aggressive import reduction
forcing delta ≤ -min(error/500, currentCharging/2). -/
def applySafetyLimits (cfg : DeltaPIDConfig) (deltaCurrent error : ℚ)
    (input : RegulationInput) (d : DeltaState) : ℚ × DeltaState :=
  let d1c := clampDelta cfg.maxDeltaPerStep deltaCurrent
  let newCurrent := input.currentCharging + d1c
  let (d2c, s2) :=
    if newCurrent < 0 then (-input.currentCharging, { d with integralError := 0 })
    else (d1c, d)
  let (d3c, s3) :=
    if newCurrent > input.maxCurrent then
      (input.maxCurrent - input.currentCharging, { s2 with integralError := 0 })
    else (d2c, s2)
  if error > cfg.importThreshold ∧ input.currentCharging > 0 then
    let aggressiveReduction := min (error / 500) (input.currentCharging * (1/2))
    (if d3c > -aggressiveReduction then -aggressiveReduction else d3c,
     { s3 with integralError := 0 })
  else (d3c, s3)

/-- The Reason string of DeltaRegulator.calculateOnPeakDelta. -/
def onPeakReason (cfg : DeltaPIDConfig) (error : ℚ) : String :=
  if error > cfg.importThreshold then "Grid import detected - reducing charge"
  else if error < -cfg.surplusThreshold then
    "Surplus solar detected - increasing charge"
  else if |error| < 50 then "Near equilibrium - maintaining"
  else if error > 0 then "Small import - slight reduction"
  else "Small surplus - slight increase"

/-- The tail of DeltaRegulator.calculateOnPeakDelta once the error and the
effective dt are fixed. -/
def onPeakFrom (cfg : DeltaPIDConfig) (input : RegulationInput)
    (error dt : ℚ) (d : DeltaState) : RegulationOutput × DeltaState :=
  let (delta0, d1) := calculatePIDDelta cfg error dt d
  let (deltaCurrent, d2) := applySafetyLimits cfg delta0 error input d1
  let d3 := { d2 with lastUpdate := input.timestamp }
  let shouldCharge :=
    input.currentCharging > 0 ∨ error < -cfg.surplusThreshold
  ({ targetCurrent := input.currentCharging + deltaCurrent,
     deltaCurrent := deltaCurrent, shouldCharge := shouldCharge,
     reason := onPeakReason cfg error }, d3)

/-- DeltaRegulator.calculateOnPeakDelta: smoothing update, the error
against total system power (smoothed + currentCharging*230 - target),
large-gap reset and dt fallback, then the delta PID tail. -/
def calculateOnPeakDelta (rexp : ℚ → ℚ) (cfg : DeltaPIDConfig)
    (input : RegulationInput) (d : DeltaState) :
    RegulationOutput × DeltaState :=
  let d0 := updateSmoothedPower rexp cfg input.gridPower input.timestamp d
  let chargingPower := input.currentCharging * 230
  let error := d0.smoothedPower + chargingPower - input.targetPower
  let dt0 := input.timestamp - d0.lastUpdate
  let (d1, dt1) := if dt0 > cfg.maxTimeGap then (reset d0, (1 : ℚ)) else (d0, dt0)
  let dt := if dt1 ≤ 0 then (1 : ℚ) else dt1
  onPeakFrom cfg input error dt d1

/-- DeltaRegulator.calculateOffPeak: target MaxHousePower/230 clamped to
MaxCurrent; the delta towards it is clamped to ±MaxDeltaPerStep.  The
state is not touched. -/
def calculateOffPeak (cfg : DeltaPIDConfig) (input : RegulationInput) :
    RegulationOutput :=
  let availablePower := input.maxHousePower
  let targetCurrent0 := availablePower / 230
  let targetCurrent :=
    if targetCurrent0 > input.maxCurrent then input.maxCurrent
    else targetCurrent0
  let deltaCurrent := clampDelta cfg.maxDeltaPerStep
    (targetCurrent - input.currentCharging)
  { targetCurrent := targetCurrent, deltaCurrent := deltaCurrent,
    shouldCharge := targetCurrent > 6,
    reason := "Off-peak mode - adjusting to maximum charging" }

/-- DeltaRegulator.Calculate. -/
def Calculate (rexp : ℚ → ℚ) (cfg : DeltaPIDConfig)
    (input : RegulationInput) (d : DeltaState) :
    RegulationOutput × DeltaState :=
  if input.isOffPeak then (calculateOffPeak cfg input, d)
  else calculateOnPeakDelta rexp cfg input d

end DeltaRegulator

/-! ## Simple on/off regulator (internal/regulation/simple_regulator.go) -/

/-- regulation.SimpleConfig. -/
structure SimpleConfig where
  surplusThreshold : ℚ
  hysteresisMargin : ℚ
deriving DecidableEq

/-- Mutable state of regulation.SimpleRegulator: the charging flag. -/
structure SimpleState where
  isCharging : Bool
deriving DecidableEq

namespace SimpleRegulator

/-- SimpleRegulator.calculateOnPeakSimple: start on surplus beyond the
threshold, stop (with hysteresis) when the surplus is gone, otherwise
track -gridPower/230 clamped to MaxCurrent. -/
def calculateOnPeakSimple (cfg : SimpleConfig) (input : RegulationInput)
    (s : SimpleState) : RegulationOutput × SimpleState :=
  if ¬s.isCharging then
    if input.gridPower < -cfg.surplusThreshold then
      let surplusPower := -input.gridPower
      let targetCurrent0 := surplusPower / 230
      let targetCurrent :=
        if targetCurrent0 > input.maxCurrent then input.maxCurrent
        else targetCurrent0
      ({ targetCurrent := targetCurrent, deltaCurrent := 0,
         shouldCharge := targetCurrent > 6,
         reason := "Starting charge - surplus detected" },
       { isCharging := true })
    else
      ({ targetCurrent := 0, deltaCurrent := 0, shouldCharge := (0 : ℚ) > 6,
         reason := "No surplus - staying stopped" }, s)
  else
    let stopThreshold := -(cfg.surplusThreshold - cfg.hysteresisMargin)
    if input.gridPower > stopThreshold then
      ({ targetCurrent := 0, deltaCurrent := 0, shouldCharge := (0 : ℚ) > 6,
         reason := "No more surplus - stopping charge" },
       { isCharging := false })
    else
      let surplusPower := -input.gridPower
      let targetCurrent0 := surplusPower / 230
      let targetCurrent :=
        if targetCurrent0 > input.maxCurrent then input.maxCurrent
        else targetCurrent0
      ({ targetCurrent := targetCurrent, deltaCurrent := 0,
         shouldCharge := targetCurrent > 6,
         reason := "Continuing charge - surplus available" }, s)

/-- SimpleRegulator.Calculate: off-peak maximum charging (state untouched)
or the on-peak hysteresis logic. -/
def Calculate (cfg : SimpleConfig) (input : RegulationInput)
    (s : SimpleState) : RegulationOutput × SimpleState :=
  if input.isOffPeak then
    let availablePower := input.maxHousePower
    let availableCurrent0 := availablePower / 230
    let availableCurrent :=
      if availableCurrent0 > input.maxCurrent then input.maxCurrent
      else availableCurrent0
    ({ targetCurrent := availableCurrent, deltaCurrent := 0,
       shouldCharge := availableCurrent > 6,
       reason := "Off-peak mode - maximum charging" }, s)
  else calculateOnPeakSimple cfg input s

end SimpleRegulator

/-! ## OpenEVSE-style regulator (regulation/openevse_regulator.go) -/

/-- regulation.OpenEVSEConfig. -/
structure OpenEVSEConfig where
  reservePowerW : ℚ
  hysteresisPowerW : ℚ
  minChargeTimeS : ℚ
  smoothingAttackS : ℚ
  smoothingDecayS : ℚ
  minChargePowerW : ℚ
  pollIntervalS : ℚ
  maxDeltaPerStepA : ℚ
deriving DecidableEq

/-- Mutable state of regulation.OpenEVSERegulator. -/
structure OpenEVSEState where
  isCharging : Bool
  chargingStartTime : ℚ
  lastUpdateTime : ℚ
  smoothedExcessPower : ℚ
  lastTargetCurrent : ℚ
  activationCount : ℕ
  deactivationCount : ℕ
deriving DecidableEq

namespace OpenEVSERegulator

/-- OpenEVSERegulator.updateSmoothedExcess: direct initialisation when the
last-update time is the zero time, otherwise a two-sided exponential with
the attack constant on a rise and the decay constant on a fall. -/
def updateSmoothedExcess (rexp : ℚ → ℚ) (cfg : OpenEVSEConfig)
    (excessPower dt : ℚ) (o : OpenEVSEState) : OpenEVSEState :=
  if o.lastUpdateTime = 0 then { o with smoothedExcessPower := excessPower }
  else
    let timeConstant :=
      if excessPower > o.smoothedExcessPower then cfg.smoothingAttackS
      else cfg.smoothingDecayS
    let alpha := 1 - rexp (-(dt / timeConstant))
    { o with smoothedExcessPower :=
        alpha * excessPower + (1 - alpha) * o.smoothedExcessPower }

/-- OpenEVSERegulator.calculateTargetCurrent: (excess - reserve)/230,
zero below the 6 A minimum, clamped to 40 A above. -/
def calculateTargetCurrent (cfg : OpenEVSEConfig) (excessPower : ℚ) : ℚ :=
  let availablePower := excessPower - cfg.reservePowerW
  if availablePower ≤ 0 then 0
  else
    let targetCurrent := availablePower / 230
    if targetCurrent < 6 then 0
    else if targetCurrent > 40 then 40
    else targetCurrent

/-- OpenEVSERegulator.applySmoothingConstraints: rate limit of
(MaxDeltaPerStepA / PollIntervalS) * dt on the raw delta. -/
def applySmoothingConstraints (cfg : OpenEVSEConfig) (rawDelta dt : ℚ) : ℚ :=
  let maxRateAS := cfg.maxDeltaPerStepA / cfg.pollIntervalS
  let maxDeltaThisStep := maxRateAS * dt
  if rawDelta > maxDeltaThisStep then maxDeltaThisStep
  else if rawDelta < -maxDeltaThisStep then -maxDeltaThisStep
  else rawDelta

/-- OpenEVSERegulator.calculateOpenEVSELogic: excess-power smoothing, the
hysteresis/minimum-charge-time transition system, the final
±MaxDeltaPerStepA clamp and the state record. -/
def calculateOpenEVSELogic (rexp : ℚ → ℚ) (cfg : OpenEVSEConfig)
    (input : RegulationInput) (o : OpenEVSEState) :
    RegulationOutput × OpenEVSEState :=
  let dt0 := input.timestamp - o.lastUpdateTime
  let dt := if dt0 ≤ 0 then cfg.pollIntervalS else dt0
  let chargingPower := input.currentCharging * 230
  let excessPower := -input.gridPower + chargingPower
  let o1 := updateSmoothedExcess rexp cfg excessPower dt o
  let (deltaCurrent0, reason, shouldCharge, o2) :=
    if ¬o1.isCharging then
      let startThreshold := cfg.minChargePowerW + cfg.hysteresisPowerW
      if o1.smoothedExcessPower > startThreshold then
        let o2 := { o1 with isCharging := true,
                            chargingStartTime := input.timestamp,
                            activationCount := o1.activationCount + 1 }
        let targetCurrent := calculateTargetCurrent cfg o2.smoothedExcessPower
        (targetCurrent - input.currentCharging,
         "Starting charge - sufficient solar excess", true, o2)
      else
        ((0 : ℚ),
         if o1.smoothedExcessPower > 0 then "Insufficient surplus for charging"
         else "Grid import detected - no charging", false, o1)
    else
      let timeSinceStart := input.timestamp - o1.chargingStartTime
      let stopThreshold := cfg.reservePowerW
      if o1.smoothedExcessPower < stopThreshold ∧
          timeSinceStart > cfg.minChargeTimeS then
        let o2 := { o1 with isCharging := false,
                            deactivationCount := o1.deactivationCount + 1 }
        (-input.currentCharging, "Stopping charge - insufficient excess power",
         false, o2)
      else
        let targetCurrent := calculateTargetCurrent cfg o1.smoothedExcessPower
        let rawDelta := targetCurrent - input.currentCharging
        (applySmoothingConstraints cfg rawDelta dt,
         if timeSinceStart < cfg.minChargeTimeS then
           "Maintaining charge - within minimum time"
         else "Adjusting charge rate - following solar production", true, o1)
  let deltaCurrent :=
    if |deltaCurrent0| > cfg.maxDeltaPerStepA then
      if deltaCurrent0 > 0 then cfg.maxDeltaPerStepA else -cfg.maxDeltaPerStepA
    else deltaCurrent0
  let o3 := { o2 with lastUpdateTime := input.timestamp,
                      lastTargetCurrent := input.currentCharging + deltaCurrent }
  ({ targetCurrent := o3.lastTargetCurrent, deltaCurrent := deltaCurrent,
     shouldCharge := shouldCharge, reason := reason }, o3)

/-- OpenEVSERegulator.calculateOffPeak: target MaxHousePower/230 clamped
to MaxCurrent, progressive delta clamped to ±MaxDeltaPerStepA.  The state
is not touched. -/
def calculateOffPeak (cfg : OpenEVSEConfig) (input : RegulationInput) :
    RegulationOutput :=
  let availablePower := input.maxHousePower
  let targetCurrent0 := availablePower / 230
  let targetCurrent :=
    if targetCurrent0 > input.maxCurrent then input.maxCurrent
    else targetCurrent0
  let delta0 := targetCurrent - input.currentCharging
  let deltaCurrent :=
    if |delta0| > cfg.maxDeltaPerStepA then
      if delta0 > 0 then cfg.maxDeltaPerStepA else -cfg.maxDeltaPerStepA
    else delta0
  { targetCurrent := targetCurrent, deltaCurrent := deltaCurrent,
    shouldCharge := targetCurrent > 6,
    reason := "Off-peak mode - maximum charging" }

/-- OpenEVSERegulator.Calculate. -/
def Calculate (rexp : ℚ → ℚ) (cfg : OpenEVSEConfig)
    (input : RegulationInput) (o : OpenEVSEState) :
    RegulationOutput × OpenEVSEState :=
  if input.isOffPeak then (calculateOffPeak cfg input, o)
  else calculateOpenEVSELogic rexp cfg input o

end OpenEVSERegulator

/-! ## Charging manager (internal/charging/manager.go, event-driven) -/

/-- The configuration fields the manager reads (config.Charging). -/
structure ManagerConfig where
  maxTotalCurrent : ℚ
  maxHousePower : ℚ
  gridTargetPower : ℚ
  pidKp : ℚ
  pidKi : ℚ
  pidKd : ℚ
  smoothingFactor : ℚ
  station1Priority : ℤ
  station2Priority : ℤ
deriving DecidableEq

/-- The DeltaPIDConfig of the manager's default regulator (NewManager
calls CreateRegulator with DeltaPIDRegulation). -/
def ManagerConfig.deltaConfig (cfg : ManagerConfig) : DeltaPIDConfig :=
  deltaPIDFactoryConfig cfg.pidKp cfg.pidKi cfg.pidKd cfg.smoothingFactor

/-- charging.Manager: station map (as a list), the two measurement cells
(value, arrival timestamp) and the Delta-PID regulator state.  nil cells
are modelled by none. -/
structure ManagerState where
  stations : List ChargingStation
  gridData : Option (ℚ × ℚ)
  hphcState : Option (Bool × ℚ)
  regulator : DeltaState
deriving DecidableEq

/-- Merge a distribution pass's updated stations back into the full map:
each station is replaced by its updated copy when the pass visited it
(station IDs are unique and the pass preserves them). -/
def mergeUpdated (all upd : List ChargingStation) : List ChargingStation :=
  all.map (fun s => ((upd.find? (fun u => u.id == s.id)).getD s))

/-- charging.Manager.checkDataFreshness (the 1-minute watchdog body): if
either cell is more than 5 minutes (300 s) old, stop all charging and
reset the regulator. -/
def checkDataFreshness (now : ℚ) (m : ManagerState) :
    ManagerState × List (String × ℚ) :=
  match m.gridData, m.hphcState with
  | some (_, gridTimestamp), some (_, hphcTimestamp) =>
    if now - gridTimestamp > 300 then
      let (st2, cbs) := stopAllCharging m.stations
      ({ m with stations := st2,
                regulator := DeltaRegulator.reset m.regulator }, cbs)
    else if now - hphcTimestamp > 300 then
      let (st2, cbs) := stopAllCharging m.stations
      ({ m with stations := st2,
                regulator := DeltaRegulator.reset m.regulator }, cbs)
    else (m, [])
  | _, _ => (m, [])

/-- charging.Manager.updateChargingLimitsInternal: freshness short-cut,
regulator invocation on the cached snapshot (the regulator's timestamp is
the grid cache timestamp), then delta-mode or absolute-mode distribution
over the connected stations sorted by priority. -/
def updateChargingLimitsInternal (rexp : ℚ → ℚ) (cfg : ManagerConfig)
    (now : ℚ) (m : ManagerState) : ManagerState × List (String × ℚ) :=
  match m.gridData, m.hphcState with
  | some (gridPower, gridTimestamp), some (isOffPeak, hphcTimestamp) =>
    if now - gridTimestamp > 300 ∨ now - hphcTimestamp > 300 then
      let (st2, cbs) := stopAllCharging m.stations
      ({ m with stations := st2,
                regulator := DeltaRegulator.reset m.regulator }, cbs)
    else
      let currentCharging := getCurrentTotalCharging m.stations
      let input : RegulationInput :=
        { gridPower := gridPower, currentCharging := currentCharging,
          isOffPeak := isOffPeak, maxCurrent := cfg.maxTotalCurrent,
          maxHousePower := cfg.maxHousePower,
          targetPower := cfg.gridTargetPower, timestamp := gridTimestamp }
      let (output, reg2) :=
        DeltaRegulator.Calculate rexp cfg.deltaConfig input m.regulator
      let connectedStations := getConnectedStations m.stations
      if connectedStations = [] then ({ m with regulator := reg2 }, [])
      else if output.deltaCurrent ≠ 0 then
        if ¬output.shouldCharge ∧ currentCharging > 0 then
          let (st2, cbs) := stopAllCharging m.stations
          ({ m with stations := st2, regulator := reg2 }, cbs)
        else
          let (upd, cbs) := applyCurrentDelta connectedStations output.deltaCurrent
          ({ m with stations := mergeUpdated m.stations upd,
                    regulator := reg2 }, cbs)
      else
        if output.targetCurrent ≤ 0 then
          let (st2, cbs) := stopAllCharging m.stations
          ({ m with stations := st2, regulator := reg2 }, cbs)
        else
          let (upd, cbs) :=
            distributeCurrentByPriority connectedStations output.targetCurrent
          ({ m with stations := mergeUpdated m.stations upd,
                    regulator := reg2 }, cbs)
  | _, _ => (m, [])

/-- One transition of the wired system: a grid-power message (cache update
at its arrival time followed by OnGridPowerUpdate), a tariff message
(cache update only), a watchdog tick, or the session adapter toggling a
station's connection or charging flag.  The OCPP adapter's
UpdateCurrentLimit only re-applies the exact value the manager just
stored, a no-op on this state, and is therefore not a separate step. -/
inductive ManagerStep (cfg : ManagerConfig) :
    ManagerState → ManagerState → Prop
  | grid (p now : ℚ) (rexp : ℚ → ℚ) (m : ManagerState) :
      ManagerStep cfg m
        (updateChargingLimitsInternal rexp cfg now
          { m with gridData := some (p, now) }).1
  | tariff (b : Bool) (now : ℚ) (m : ManagerState) :
      ManagerStep cfg m { m with hphcState := some (b, now) }
  | tick (now : ℚ) (m : ManagerState) :
      ManagerStep cfg m (checkDataFreshness now m).1
  | connect (id : String) (b : Bool) (now : ℚ) (m : ManagerState) :
      ManagerStep cfg m
        { m with stations := (m.stations.map
            (fun s => if s.id == id then s.SetConnected b now else s)) }
  | charging (id : String) (b : Bool) (m : ManagerState) :
      ManagerStep cfg m
        { m with stations := (m.stations.map
            (fun s => if s.id == id then s.SetCharging b else s)) }

/-- States the wired system can reach: ocpp.Server.initializeStations
creates station1 and station2 with max current 32 A and limit 0, the
measurement cells start at (0, now) and (false, now), the regulator is the
freshly created Delta-PID regulator; then any sequence of steps. -/
inductive ManagerReach (cfg : ManagerConfig) : ManagerState → Prop
  | init (t0 : ℚ) :
      ManagerReach cfg
        { stations := [NewChargingStation "station1" cfg.station1Priority 32,
                       NewChargingStation "station2" cfg.station2Priority 32],
          gridData := some (0, t0), hphcState := some (false, t0),
          regulator := NewDeltaRegulator t0 }
  | step {m m2 : ManagerState} :
      ManagerReach cfg m → ManagerStep cfg m m2 → ManagerReach cfg m2

/-- The per-station state invariant the manager maintains: a non-negative
max current, a stored limit within it, and a stored limit that is either 0
or at least the 6 A minimum charging current. -/
def stInv (s : ChargingStation) : Prop :=
  0 ≤ s.maxCurrent ∧ s.currentLimit ≤ s.maxCurrent ∧
    (s.currentLimit = 0 ∨ 6 ≤ s.currentLimit)

/-! ## Concrete fixtures used by the claim theorems -/

/-- The factory PID configuration (regulation.CreateRegulator, case
PIDRegulation) at the gains of the reference scenario: Kp = 0.002,
Ki = 0.0005, Kd = 2e-5, smoothing time constant 0.1 s. -/
def exPIDConfig : PIDConfig :=
  { kp := 1/500, ki := 1/2000, kd := 1/50000, smoothingFactor := 1/10,
    maxTimeGap := 60, surplusThreshold := 100, importThreshold := 50 }

/-- The factory Delta-PID configuration at the same gains. -/
def exDeltaConfig : DeltaPIDConfig :=
  deltaPIDFactoryConfig (1/500) (1/2000) (1/50000) (1/10)

/-- The factory simple-regulator configuration. -/
def exSimpleConfig : SimpleConfig :=
  { surplusThreshold := 200, hysteresisMargin := 100 }

/-- The factory OpenEVSE configuration. -/
def exOpenEVSEConfig : OpenEVSEConfig :=
  { reservePowerW := 100, hysteresisPowerW := 600, minChargeTimeS := 300,
    smoothingAttackS := 30, smoothingDecayS := 120, minChargePowerW := 1400,
    pollIntervalS := 10, maxDeltaPerStepA := 3 }

/-- Off-peak reference input: tariff HC, grid +1000 W, house limit
12000 W, total budget 40 A. -/
def offPeakInput : RegulationInput :=
  { gridPower := 1000, currentCharging := 0, isOffPeak := true,
    maxCurrent := 40, maxHousePower := 12000, targetPower := 0,
    timestamp := 0 }

/-- First on-peak sample of the bootstrap scenario: grid -2000 W, target
power 0, timestamp equal to the construction time. -/
def bootstrapInput : RegulationInput :=
  { gridPower := -2000, currentCharging := 0, isOffPeak := false,
    maxCurrent := 40, maxHousePower := 12000, targetPower := 0, timestamp := 0 }

/-- The time-gap test configuration: reference gains, MaxTimeGap 1 s. -/
def gapConfig : PIDConfig := { exPIDConfig with maxTimeGap := 1 }

/-- First call of the time-gap scenario, at t = 0. -/
def gapInput1 : RegulationInput :=
  { gridPower := -1000, currentCharging := 0, isOffPeak := false,
    maxCurrent := 40, maxHousePower := 12000, targetPower := 0, timestamp := 0 }

/-- Second call of the time-gap scenario, 5 s later. -/
def gapInput2 : RegulationInput := { gapInput1 with timestamp := 5 }

/-- A connected station holding a limit of 0.25 A, below the deadband. -/
def lowLimitStation : ChargingStation :=
  { id := "station1", isConnected := true, isCharging := true,
    currentLimit := 1/4, maxCurrent := 32, priority := 1, lastHeartbeat := 0 }

/-- A station charging at 6 A, the minimum viable current. -/
def sixAmpStation : ChargingStation :=
  { id := "station1", isConnected := true, isCharging := true,
    currentLimit := 6, maxCurrent := 32, priority := 1, lastHeartbeat := 0 }

/-- On-peak import snapshot: grid +5400 W while 20 A are charging, so the
total-power error is 5400 + 20*230 = 10000 W. -/
def importInput : RegulationInput :=
  { gridPower := 5400, currentCharging := 20, isOffPeak := false,
    maxCurrent := 40, maxHousePower := 12000, targetPower := 0, timestamp := 0 }

/-- Connected idle station of priority 1 (ocpp initialisation: 32 A max,
limit 0). -/
def stationA : ChargingStation :=
  { id := "station1", isConnected := true, isCharging := false,
    currentLimit := 0, maxCurrent := 32, priority := 1, lastHeartbeat := 0 }

/-- Connected idle station of priority 2. -/
def stationB : ChargingStation :=
  { id := "station2", isConnected := true, isCharging := false,
    currentLimit := 0, maxCurrent := 32, priority := 2, lastHeartbeat := 0 }


/-- Manager configuration of the reference setup: 40 A total, 12 kW
house, 0 W grid target, the reference gains, priorities 1 and 2. -/
def exManagerConfig : ManagerConfig :=
  { maxTotalCurrent := 40, maxHousePower := 12000, gridTargetPower := 0,
    pidKp := 1/500, pidKi := 1/2000, pidKd := 1/50000,
    smoothingFactor := 1/10, station1Priority := 1, station2Priority := 2 }

/-- Station of priority 1 holding 33.5 A under a 34 A bound. -/
def c3Station1 : ChargingStation :=
  { id := "station1", isConnected := true, isCharging := true,
    currentLimit := 67/2, maxCurrent := 34, priority := 1, lastHeartbeat := 0 }

/-- Station of priority 2 holding 6.4 A under a 40 A bound. -/
def c3Station2 : ChargingStation :=
  { id := "station2", isConnected := true, isCharging := true,
    currentLimit := 32/5, maxCurrent := 40, priority := 2, lastHeartbeat := 0 }

/-! ## Shared helper lemmas and fixtures -/

/-- The Go clamp pattern (if x exceeds c, use c) is a minimum. -/
theorem if_gt_eq_min (x c : ℚ) : (if x > c then c else x) = min x c := by
  split_ifs with h
  · exact (min_eq_right h.le).symm
  · exact (min_eq_left (not_lt.mp h)).symm

/-- SetCurrentLimit stores the minimum of the request and MaxCurrent. -/
theorem SetCurrentLimit_eq (s : ChargingStation) (c : ℚ) :
    s.SetCurrentLimit c = { s with currentLimit := min c s.maxCurrent } := by
  unfold ChargingStation.SetCurrentLimit
  split_ifs with h
  · rw [min_eq_right h.le]
  · rw [min_eq_left (not_lt.mp h)]

/-- A write within the deadband is skipped. -/
theorem setStationCurrent_skip (s : ChargingStation) (c : ℚ)
    (h : |c - s.currentLimit| < 1/2) : setStationCurrent s c = (s, none) := by
  unfold setStationCurrent
  rw [if_pos h]

/-- A write beyond the deadband is stored (clamped) and emits a callback. -/
theorem setStationCurrent_applied (s : ChargingStation) (c : ℚ)
    (h : ¬ |c - s.currentLimit| < 1/2) :
    setStationCurrent s c =
      ({ s with currentLimit := min c s.maxCurrent }, some (s.id, c)) := by
  unfold setStationCurrent
  rw [if_neg h, SetCurrentLimit_eq]

/-- However a write resolves, the stored limit ends strictly below the
requested value plus the 0.5 A deadband. -/
theorem setStationCurrent_limit_lt (s : ChargingStation) (c : ℚ) :
    (setStationCurrent s c).1.currentLimit < c + 1/2 := by
  unfold setStationCurrent
  split_ifs with h
  · have := abs_lt.mp h
    dsimp only
    linarith [this.1]
  · rw [SetCurrentLimit_eq]
    have := min_le_left c s.maxCurrent
    dsimp only
    linarith

/-- The stored limit also never exceeds the larger of the requested value
and the previous limit. -/
theorem setStationCurrent_limit_le (s : ChargingStation) (c : ℚ) :
    (setStationCurrent s c).1.currentLimit ≤ max c s.currentLimit := by
  unfold setStationCurrent
  split_ifs with h
  · exact le_max_right _ _
  · rw [SetCurrentLimit_eq]
    exact le_trans (min_le_left _ _) (le_max_left _ _)

/-- The nil case of distributeCurrentByPriority. -/
theorem distributeCurrentByPriority_nil (B : ℚ) :
    distributeCurrentByPriority [] B = ([], []) := rfl

/-- The cons unfolding of distributeCurrentByPriority, let-free. -/
theorem distributeCurrentByPriority_cons_eq (s : ChargingStation)
    (rest : List ChargingStation) (B : ℚ) :
    distributeCurrentByPriority (s :: rest) B =
      if B ≤ 0 then
        ((setStationCurrent s 0).1 :: (distributeCurrentByPriority rest B).1,
          (setStationCurrent s 0).2.toList ++
            (distributeCurrentByPriority rest B).2)
      else if B < 6 then
        ((setStationCurrent s 0).1 :: (distributeCurrentByPriority rest B).1,
          (setStationCurrent s 0).2.toList ++
            (distributeCurrentByPriority rest B).2)
      else if min B s.maxCurrent ≥ 6 then
        ((setStationCurrent s (min B s.maxCurrent)).1 ::
            (distributeCurrentByPriority rest (B - min B s.maxCurrent)).1,
          (setStationCurrent s (min B s.maxCurrent)).2.toList ++
            (distributeCurrentByPriority rest (B - min B s.maxCurrent)).2)
      else
        ((setStationCurrent s 0).1 :: (distributeCurrentByPriority rest B).1,
          (setStationCurrent s 0).2.toList ++
            (distributeCurrentByPriority rest B).2) := rfl

/-- Stepping lemma: a budget below the 6 A minimum writes 0 to the head
station and leaves the budget unchanged. -/
theorem distributeCurrentByPriority_cons_small (s : ChargingStation)
    (rest : List ChargingStation) (B : ℚ) (hB : B < 6) :
    distributeCurrentByPriority (s :: rest) B =
      ((setStationCurrent s 0).1 ::
          (distributeCurrentByPriority rest B).1,
        (setStationCurrent s 0).2.toList ++
          (distributeCurrentByPriority rest B).2) := by
  rw [distributeCurrentByPriority_cons_eq]
  by_cases h0 : B ≤ 0
  · rw [if_pos h0]
  · rw [if_neg h0, if_pos hB]

/-- Stepping lemma: with at least 6 A of budget and a station bound of at
least 6 A, the head station is written min(budget, MaxCurrent) and the
budget shrinks by the allocation. -/
theorem distributeCurrentByPriority_cons_alloc (s : ChargingStation)
    (rest : List ChargingStation) (B : ℚ) (hB : 6 ≤ B)
    (hm : 6 ≤ s.maxCurrent) :
    distributeCurrentByPriority (s :: rest) B =
      ((setStationCurrent s (min B s.maxCurrent)).1 ::
          (distributeCurrentByPriority rest (B - min B s.maxCurrent)).1,
        (setStationCurrent s (min B s.maxCurrent)).2.toList ++
          (distributeCurrentByPriority rest (B - min B s.maxCurrent)).2) := by
  rw [distributeCurrentByPriority_cons_eq,
    if_neg (by intro h; linarith : ¬ B ≤ 0),
    if_neg (by intro h; linarith : ¬ B < 6),
    if_pos (le_min hB hm : (6:ℚ) ≤ min B s.maxCurrent)]

/-! ## C10: reset touches only the PID accumulators and the counter -/

/-- C10.  Reset of the PID regulator rewrites exactly the previous error,
the integral accumulator, the current target and the reset counter, and
reset of the Delta-PID regulator exactly the previous error, the integral
accumulator and the reset counter; in both, the smoothed-power accumulator
and the last-update timestamp are untouched, so the smoothing history
survives a reset.  (Regulator.Reset is the mutex wrapper around reset.) -/
theorem reset_frame_effect (p : PIDState) (d : DeltaState) :
    PIDRegulator.reset p =
      { previousError := 0, integralError := 0, currentTarget := 0,
        smoothedPower := p.smoothedPower, lastUpdate := p.lastUpdate,
        resetCount := p.resetCount + 1 } ∧
    DeltaRegulator.reset d =
      { previousError := 0, integralError := 0,
        smoothedPower := d.smoothedPower, lastUpdate := d.lastUpdate,
        resetCount := d.resetCount + 1 } := by
  exact ⟨rfl, rfl⟩

/-! ## C4: the off-peak branch of every variant -/

/-- C4.  For every regulator variant, every internal state and every
off-peak input, the emitted target current is
min(MaxHousePower / 230, MaxCurrent) — the manager wires MaxCurrent to
max_total_current — and the charge flag is set exactly when that value
exceeds 6 A; in particular MaxHousePower = 12000 W with MaxCurrent = 40 A
gives target 40 A and a true charge flag. -/
theorem offPeak_target_current
    (rexp : ℚ → ℚ) (pcfg : PIDConfig) (dcfg : DeltaPIDConfig)
    (scfg : SimpleConfig) (ocfg : OpenEVSEConfig)
    (input : RegulationInput) (p : PIDState) (d : DeltaState)
    (s : SimpleState) (o : OpenEVSEState)
    (hoff : input.isOffPeak = true) :
    ((PIDRegulator.Calculate rexp pcfg input p).1.targetCurrent =
        min (input.maxHousePower / 230) input.maxCurrent ∧
      ((PIDRegulator.Calculate rexp pcfg input p).1.shouldCharge = true ↔
        6 < min (input.maxHousePower / 230) input.maxCurrent)) ∧
    ((DeltaRegulator.Calculate rexp dcfg input d).1.targetCurrent =
        min (input.maxHousePower / 230) input.maxCurrent ∧
      ((DeltaRegulator.Calculate rexp dcfg input d).1.shouldCharge = true ↔
        6 < min (input.maxHousePower / 230) input.maxCurrent)) ∧
    ((SimpleRegulator.Calculate scfg input s).1.targetCurrent =
        min (input.maxHousePower / 230) input.maxCurrent ∧
      ((SimpleRegulator.Calculate scfg input s).1.shouldCharge = true ↔
        6 < min (input.maxHousePower / 230) input.maxCurrent)) ∧
    ((OpenEVSERegulator.Calculate rexp ocfg input o).1.targetCurrent =
        min (input.maxHousePower / 230) input.maxCurrent ∧
      ((OpenEVSERegulator.Calculate rexp ocfg input o).1.shouldCharge = true ↔
        6 < min (input.maxHousePower / 230) input.maxCurrent)) ∧
    (input.maxHousePower = 12000 → input.maxCurrent = 40 →
      (PIDRegulator.Calculate rexp pcfg input p).1.targetCurrent = 40 ∧
      (PIDRegulator.Calculate rexp pcfg input p).1.shouldCharge = true) := by
  have hmin : ∀ x c : ℚ, (if x > c then c else x) = min x c := if_gt_eq_min
  refine ⟨⟨?_, ?_⟩, ⟨?_, ?_⟩, ⟨?_, ?_⟩, ⟨?_, ?_⟩, ?_⟩ <;>
    simp only [PIDRegulator.Calculate, DeltaRegulator.Calculate,
      SimpleRegulator.Calculate, OpenEVSERegulator.Calculate, hoff, if_true,
      PIDRegulator.calculateOffPeak, DeltaRegulator.calculateOffPeak,
      OpenEVSERegulator.calculateOffPeak, hmin]
  any_goals exact decide_eq_true_iff
  intro h12 h40
  rw [h12, h40]
  have h4 : (12000 : ℚ) / 230 ⊓ 40 = 40 := by
    rw [min_eq_right]
    norm_num
  rw [h4]
  norm_num

/-- Witness for C4 at the reference off-peak scenario. -/
theorem offPeak_target_current_witness :
    (PIDRegulator.Calculate (fun _ => 0) exPIDConfig offPeakInput
        (NewPIDRegulator 0)).1.targetCurrent = 40 ∧
    (PIDRegulator.Calculate (fun _ => 0) exPIDConfig offPeakInput
        (NewPIDRegulator 0)).1.shouldCharge = true := by
  exact (offPeak_target_current (fun _ => 0) exPIDConfig exDeltaConfig
    exSimpleConfig exOpenEVSEConfig offPeakInput (NewPIDRegulator 0)
    (NewDeltaRegulator 0) { isCharging := false }
    { isCharging := false, chargingStartTime := 0, lastUpdateTime := 0,
      smoothedExcessPower := 0, lastTargetCurrent := 0, activationCount := 0,
      deactivationCount := 0 } rfl).2.2.2.2 rfl rfl

/-! ## C5: the off-peak branch ignores grid power -/

/-- C5.  For every regulator variant, starting from identical internal
states, two off-peak inputs that differ only in the grid power field
produce the same Calculate result (output and final internal state);
the opaque debug map, which is not modelled, also carries no grid power
in any off-peak branch. -/
theorem offPeak_independent_of_grid_power
    (rexp : ℚ → ℚ) (pcfg : PIDConfig) (dcfg : DeltaPIDConfig)
    (scfg : SimpleConfig) (ocfg : OpenEVSEConfig)
    (input : RegulationInput) (g : ℚ) (p : PIDState) (d : DeltaState)
    (s : SimpleState) (o : OpenEVSEState)
    (hoff : input.isOffPeak = true) :
    PIDRegulator.Calculate rexp pcfg { input with gridPower := g } p =
      PIDRegulator.Calculate rexp pcfg input p ∧
    DeltaRegulator.Calculate rexp dcfg { input with gridPower := g } d =
      DeltaRegulator.Calculate rexp dcfg input d ∧
    SimpleRegulator.Calculate scfg { input with gridPower := g } s =
      SimpleRegulator.Calculate scfg input s ∧
    OpenEVSERegulator.Calculate rexp ocfg { input with gridPower := g } o =
      OpenEVSERegulator.Calculate rexp ocfg input o := by
  refine ⟨?_, ?_, ?_, ?_⟩ <;>
    simp only [PIDRegulator.Calculate, DeltaRegulator.Calculate,
      SimpleRegulator.Calculate, OpenEVSERegulator.Calculate, hoff, if_true,
      PIDRegulator.calculateOffPeak, DeltaRegulator.calculateOffPeak,
      OpenEVSERegulator.calculateOffPeak]

/-- Witness for C5: grid power +1000 W and -5000 W agree off-peak. -/
theorem offPeak_independent_of_grid_power_witness :
    PIDRegulator.Calculate (fun _ => 0) exPIDConfig
        { offPeakInput with gridPower := -5000 } (NewPIDRegulator 0) =
      PIDRegulator.Calculate (fun _ => 0) exPIDConfig offPeakInput
        (NewPIDRegulator 0) := by
  exact (offPeak_independent_of_grid_power (fun _ => 0) exPIDConfig
    exDeltaConfig exSimpleConfig exOpenEVSEConfig offPeakInput (-5000)
    (NewPIDRegulator 0) (NewDeltaRegulator 0) { isCharging := false }
    { isCharging := false, chargingStartTime := 0, lastUpdateTime := 0,
      smoothedExcessPower := 0, lastTargetCurrent := 0, activationCount := 0,
      deactivationCount := 0 } rfl).1

/-! ## C6: PID bootstrap seeding -/

/-- C6.  In calculatePID, whenever the error is below -SurplusThreshold
and the accumulated target is exactly 0, the target is seeded to
min(-error/230, 10) instead of being incremented by the PID step; and
concretely, the very first on-peak call at grid power -2000 W (hence
smoothed power -2000 W after the first-sample initialisation), target
power 0, target 0 and surplus threshold 100 W yields target
200/23 ≈ 8.70 A. -/
theorem pid_bootstrap_seed
    (cfg : PIDConfig) (error dt : ℚ) (p : PIDState)
    (htarget : p.currentTarget = 0)
    (hsurplus : error < -cfg.surplusThreshold) :
    ((PIDRegulator.calculatePID cfg error dt p).1 = min (-error / 230) 10 ∧
      (PIDRegulator.calculatePID cfg error dt p).2.currentTarget =
        min (-error / 230) 10) ∧
    ((PIDRegulator.calculateOnPeak (fun _ => 0) exPIDConfig bootstrapInput
        (NewPIDRegulator 0)).1.targetCurrent = 200 / 23 ∧
      |(200 : ℚ) / 23 - 87 / 10| < 1 / 100) := by
  refine ⟨⟨?_, ?_⟩, ?_, ?_⟩
  · simp [PIDRegulator.calculatePID, htarget, hsurplus]
  · simp [PIDRegulator.calculatePID, htarget, hsurplus]
  · norm_num [PIDRegulator.calculateOnPeak, PIDRegulator.updateSmoothedPower,
      PIDRegulator.calculatePID, PIDRegulator.applySafetyChecks,
      PIDRegulator.onPeakFrom, PIDRegulator.reset, NewPIDRegulator,
      exPIDConfig, bootstrapInput, min_def]
  · rw [abs_sub_lt_iff]
    constructor <;> norm_num

/-- Witness for C6: the seeding rule applied at error -2000 W with a
fresh regulator. -/
theorem pid_bootstrap_seed_witness :
    (PIDRegulator.calculatePID exPIDConfig (-2000) 1
      (NewPIDRegulator 0)).1 = min (-(-2000 : ℚ) / 230) 10 :=
  ((pid_bootstrap_seed exPIDConfig (-2000) 1 (NewPIDRegulator 0) rfl
    (by norm_num [exPIDConfig])).1).1

/-! ## C7: large time gap and non-positive dt -/

/-- updateSmoothedPower only touches the smoothed power accumulator. -/
theorem updateSmoothedPower_lastUpdate (rexp : ℚ → ℚ) (cfg : PIDConfig)
    (c t : ℚ) (p : PIDState) :
    (PIDRegulator.updateSmoothedPower rexp cfg c t p).lastUpdate =
      p.lastUpdate ∧
    (PIDRegulator.updateSmoothedPower rexp cfg c t p).resetCount =
      p.resetCount := by
  constructor <;>
    (simp only [PIDRegulator.updateSmoothedPower]; split_ifs <;> rfl)

/-- The PID tail never touches the reset counter. -/
theorem onPeakFrom_resetCount (cfg : PIDConfig) (input : RegulationInput)
    (error dt : ℚ) (p : PIDState) :
    (PIDRegulator.onPeakFrom cfg input error dt p).2.resetCount =
      p.resetCount := by
  simp only [PIDRegulator.onPeakFrom, PIDRegulator.calculatePID,
    PIDRegulator.applySafetyChecks]
  split_ifs <;> rfl

/-- C7.  On-peak, a time delta beyond MaxTimeGap makes the controller
reset (previous error, integral and target zeroed and the reset counter
bumped, by reset) and replaces dt by 1 s; a non-positive time delta is
likewise replaced by 1 s without a reset; and concretely two on-peak
calls 5 s apart under MaxTimeGap = 1 s leave the reset counter
incremented by 1. -/
theorem pid_time_gap_reset
    (rexp : ℚ → ℚ) (cfg : PIDConfig) (input : RegulationInput)
    (p : PIDState) :
    (input.timestamp - p.lastUpdate > cfg.maxTimeGap →
      PIDRegulator.calculateOnPeak rexp cfg input p =
        PIDRegulator.onPeakFrom cfg input
          ((PIDRegulator.updateSmoothedPower rexp cfg input.gridPower
              input.timestamp p).smoothedPower - input.targetPower) 1
          (PIDRegulator.reset (PIDRegulator.updateSmoothedPower rexp cfg
            input.gridPower input.timestamp p)) ∧
      (PIDRegulator.calculateOnPeak rexp cfg input p).2.resetCount =
        p.resetCount + 1) ∧
    (input.timestamp - p.lastUpdate ≤ 0 →
      ¬ input.timestamp - p.lastUpdate > cfg.maxTimeGap →
      PIDRegulator.calculateOnPeak rexp cfg input p =
        PIDRegulator.onPeakFrom cfg input
          ((PIDRegulator.updateSmoothedPower rexp cfg input.gridPower
              input.timestamp p).smoothedPower - input.targetPower) 1
          (PIDRegulator.updateSmoothedPower rexp cfg input.gridPower
            input.timestamp p)) ∧
    ((PIDRegulator.Calculate (fun _ => 0) gapConfig gapInput2
        (PIDRegulator.Calculate (fun _ => 0) gapConfig gapInput1
          (NewPIDRegulator 0)).2).2.resetCount =
      (NewPIDRegulator 0).resetCount + 1) := by
  have hlast := (updateSmoothedPower_lastUpdate rexp cfg input.gridPower
    input.timestamp p).1
  have hcount := (updateSmoothedPower_lastUpdate rexp cfg input.gridPower
    input.timestamp p).2
  refine ⟨?_, ?_, ?_⟩
  · intro hgap
    have heq : PIDRegulator.calculateOnPeak rexp cfg input p =
        PIDRegulator.onPeakFrom cfg input
          ((PIDRegulator.updateSmoothedPower rexp cfg input.gridPower
              input.timestamp p).smoothedPower - input.targetPower) 1
          (PIDRegulator.reset (PIDRegulator.updateSmoothedPower rexp cfg
            input.gridPower input.timestamp p)) := by
      simp only [PIDRegulator.calculateOnPeak, hlast]
      rw [if_pos hgap]
      norm_num
    refine ⟨heq, ?_⟩
    rw [heq, onPeakFrom_resetCount]
    simp [PIDRegulator.reset, hcount]
  · intro hnp hgap
    simp only [PIDRegulator.calculateOnPeak, hlast]
    rw [if_neg hgap]
    dsimp only
    rw [if_pos hnp]
  · norm_num [PIDRegulator.Calculate, PIDRegulator.calculateOnPeak,
      PIDRegulator.updateSmoothedPower, PIDRegulator.calculatePID,
      PIDRegulator.applySafetyChecks, PIDRegulator.onPeakFrom,
      PIDRegulator.reset, PIDRegulator.onPeakReason, NewPIDRegulator,
      exPIDConfig, gapConfig, gapInput1, gapInput2, min_def]

/-- Witness for C7: one call at t = 100 on a fresh regulator built at
t = 0 exceeds the 60 s gap and bumps the reset counter to 1. -/
theorem pid_time_gap_reset_witness :
    (PIDRegulator.calculateOnPeak (fun _ => 0) exPIDConfig
      { gapInput1 with timestamp := 100 }
      (NewPIDRegulator 0)).2.resetCount = (NewPIDRegulator 0).resetCount + 1 :=
  ((pid_time_gap_reset (fun _ => 0) exPIDConfig
    { gapInput1 with timestamp := 100 } (NewPIDRegulator 0)).1
    (by norm_num [gapInput1, NewPIDRegulator, exPIDConfig])).2

/-! ## C1: the 0.5 A deadband applies to zero writes too -/

/-- Counterexample to C1: setStationCurrent has no special case for 0 A
writes.  Writing 0 A to a station holding 0.25 A is within the deadband:
the station is left unchanged with a nonzero limit and no callback is
emitted, so a 0 A write is NOT always applied. -/
theorem zero_write_suppressed_cex :
    setStationCurrent lowLimitStation 0 = (lowLimitStation, none) ∧
    lowLimitStation.currentLimit ≠ 0 := by
  constructor
  · simp only [setStationCurrent]
    rw [if_pos]
    rw [abs_lt]
    constructor <;> norm_num [lowLimitStation]
  · norm_num [lowLimitStation]

/-- C1 as amended.  Every manager write to an existing station — a 0 A
write included — is subject to the deadband: a requested value within
0.5 A of the stored limit is skipped with no callback; a requested value
at least 0.5 A away is stored clamped to MaxCurrent (min) and the
callback carries the unclamped request.  A 0 A write therefore takes
effect exactly when the stored limit is at least 0.5 A away from 0. -/
theorem write_deadband_amended (s : ChargingStation) (c : ℚ) :
    (|c - s.currentLimit| < 1/2 → setStationCurrent s c = (s, none)) ∧
    (1/2 ≤ |c - s.currentLimit| →
      (setStationCurrent s c).1.currentLimit = min c s.maxCurrent ∧
      (setStationCurrent s c).2 = some (s.id, c)) := by
  constructor
  · intro h
    unfold setStationCurrent
    rw [if_pos h]
  · intro h
    have hnot : ¬ |c - s.currentLimit| < 1/2 := not_lt.mpr h
    unfold setStationCurrent
    rw [if_neg hnot]
    unfold ChargingStation.SetCurrentLimit
    constructor
    · split_ifs with hgt
      · exact (min_eq_right hgt.le).symm
      · exact (min_eq_left (not_lt.mp hgt)).symm
    · rfl

/-- Witness for the amended C1: a 0 A write to a station at 6 A is
applied (stored limit 0) and emits the callback. -/
theorem write_deadband_amended_witness :
    (1/2 : ℚ) ≤ |0 - sixAmpStation.currentLimit| ∧
    ((setStationCurrent sixAmpStation 0).1.currentLimit =
        min 0 sixAmpStation.maxCurrent ∧
      (setStationCurrent sixAmpStation 0).2 = some (sixAmpStation.id, 0)) := by
  have h : (1/2 : ℚ) ≤ |0 - sixAmpStation.currentLimit| := by
    rw [show (0 : ℚ) - sixAmpStation.currentLimit = -6 by norm_num [sixAmpStation]]
    rw [abs_neg, abs_of_nonneg (by norm_num)]
    norm_num
  exact ⟨h, (write_deadband_amended sixAmpStation 0).2 h⟩

/-! ## C8: the Delta-PID safety post-checks -/

/-- Counterexample to C8: an on-peak Delta-PID computation whose emitted
delta violates |delta| ≤ MaxDeltaPerStep.  At the factory configuration
(MaxDeltaPerStep 5 A, ImportThreshold 100 W), a first call at grid
+5400 W with 20 A charging triggers the aggressive import reduction
min(10000/500, 20*0.5) = 10 A, which is applied AFTER the ±5 A clamp:
the emitted delta is -10 A. -/
theorem delta_step_bound_cex :
    ¬ |(DeltaRegulator.Calculate (fun _ => 0) exDeltaConfig importInput
        (NewDeltaRegulator 0)).1.deltaCurrent| ≤
      exDeltaConfig.maxDeltaPerStep := by
  norm_num [DeltaRegulator.Calculate, DeltaRegulator.calculateOnPeakDelta,
    DeltaRegulator.updateSmoothedPower, DeltaRegulator.calculatePIDDelta,
    DeltaRegulator.applySafetyLimits, DeltaRegulator.onPeakFrom,
    DeltaRegulator.onPeakReason, DeltaRegulator.reset, clampDelta,
    NewDeltaRegulator, exDeltaConfig, deltaPIDFactoryConfig, importInput,
    min_def, abs_le]

/-- C8 as amended.  The PID delta is clamped to ±MaxDeltaPerStep first,
and that bound holds for the emitted delta only when no post-check fires.
Writing d1 for the step-clamped delta: if the aggressive import branch
does not fire and currentCharging + d1 < 0 (with MaxCurrent ≥ 0), the
emitted delta is exactly -currentCharging (projected current 0) and the
integral is zeroed; if instead currentCharging + d1 > MaxCurrent, the
emitted delta is exactly MaxCurrent - currentCharging (projected current
MaxCurrent) and the integral is zeroed; and whenever
error > ImportThreshold with currentCharging > 0, the emitted delta is at
most -min(error/500, currentCharging*0.5) with the integral zeroed — a
reduction that may exceed MaxDeltaPerStep in magnitude. -/
theorem delta_safety_limits_amended
    (cfg : DeltaPIDConfig) (delta error : ℚ) (input : RegulationInput)
    (d : DeltaState) :
    (0 ≤ cfg.maxDeltaPerStep →
      |clampDelta cfg.maxDeltaPerStep delta| ≤ cfg.maxDeltaPerStep) ∧
    (error > cfg.importThreshold ∧ input.currentCharging > 0 →
      (DeltaRegulator.applySafetyLimits cfg delta error input d).1 ≤
          -min (error / 500) (input.currentCharging * (1/2)) ∧
        (DeltaRegulator.applySafetyLimits cfg delta error input d).2.integralError
          = 0) ∧
    (¬(error > cfg.importThreshold ∧ input.currentCharging > 0) →
      0 ≤ input.maxCurrent →
      input.currentCharging + clampDelta cfg.maxDeltaPerStep delta < 0 →
      (DeltaRegulator.applySafetyLimits cfg delta error input d).1 =
          -input.currentCharging ∧
        (DeltaRegulator.applySafetyLimits cfg delta error input d).2.integralError
          = 0) ∧
    (¬(error > cfg.importThreshold ∧ input.currentCharging > 0) →
      ¬ input.currentCharging + clampDelta cfg.maxDeltaPerStep delta < 0 →
      input.currentCharging + clampDelta cfg.maxDeltaPerStep delta >
        input.maxCurrent →
      (DeltaRegulator.applySafetyLimits cfg delta error input d).1 =
          input.maxCurrent - input.currentCharging ∧
        (DeltaRegulator.applySafetyLimits cfg delta error input d).2.integralError
          = 0) ∧
    (¬(error > cfg.importThreshold ∧ input.currentCharging > 0) →
      ¬ input.currentCharging + clampDelta cfg.maxDeltaPerStep delta < 0 →
      ¬ input.currentCharging + clampDelta cfg.maxDeltaPerStep delta >
          input.maxCurrent →
      (DeltaRegulator.applySafetyLimits cfg delta error input d).1 =
        clampDelta cfg.maxDeltaPerStep delta) := by
  refine ⟨?_, ?_, ?_, ?_, ?_⟩
  · intro hM
    unfold clampDelta
    split_ifs with h1 h2
    · rw [abs_of_nonneg hM]
    · rw [abs_neg, abs_of_nonneg hM]
    · rw [abs_le]
      constructor <;> linarith [not_lt.mp h1, not_lt.mp h2]
  · intro hagg
    simp only [DeltaRegulator.applySafetyLimits]
    constructor
    · split_ifs <;> dsimp only <;> linarith
    · split_ifs <;> rfl
  · intro hagg hmax hlow
    have hnot2 : ¬ input.currentCharging + clampDelta cfg.maxDeltaPerStep delta
        > input.maxCurrent := by
      intro hcon
      linarith
    simp only [DeltaRegulator.applySafetyLimits, if_pos hlow, if_neg hnot2,
      if_neg hagg]
    constructor <;> first | rfl | trivial
  · intro hagg hlow hhigh
    simp only [DeltaRegulator.applySafetyLimits, if_neg hagg, if_neg hlow,
      if_pos hhigh]
    constructor <;> first | rfl | trivial
  · intro hagg hlow hhigh
    simp only [DeltaRegulator.applySafetyLimits, if_neg hagg, if_neg hlow,
      if_neg hhigh]

/-- Witness for the amended C8: the aggressive import reduction at the
counterexample snapshot forces the delta to at most -10 A and zeroes the
integral. -/
theorem delta_safety_limits_amended_witness :
    (DeltaRegulator.applySafetyLimits exDeltaConfig 0 10000 importInput
        (NewDeltaRegulator 0)).1 ≤
      -min ((10000 : ℚ) / 500) (importInput.currentCharging * (1/2)) ∧
    (DeltaRegulator.applySafetyLimits exDeltaConfig 0 10000 importInput
        (NewDeltaRegulator 0)).2.integralError = 0 :=
  (delta_safety_limits_amended exDeltaConfig 0 10000 importInput
    (NewDeltaRegulator 0)).2.1
    ⟨by norm_num [exDeltaConfig, deltaPIDFactoryConfig],
     by norm_num [importInput]⟩

/-! ## C9: two-station priority split in absolute mode -/

/-- Counterexample to C9: with a budget of 5 A — below 12 A, as the claim
quantifies — the higher-priority station does NOT receive the budget:
both stations end at 0 because 5 A is below the 6 A minimum charging
current. -/
theorem priority_split_cex :
    ((distributeCurrentByPriority (getConnectedStations [stationA, stationB])
        5).1.map (fun s => s.currentLimit)) = [0, 0] ∧
    (5 : ℚ) < 12 ∧ (0 : ℚ) ≠ min 5 stationA.maxCurrent := by
  refine ⟨?_, by norm_num, by norm_num [stationA, min_def]⟩
  have hsort : getConnectedStations [stationA, stationB] =
      [stationA, stationB] := by
    simp [getConnectedStations, List.insertionSort, List.orderedInsert,
      stationA, stationB]
  have hskipA : setStationCurrent stationA 0 = (stationA, none) :=
    setStationCurrent_skip stationA 0 (by norm_num [stationA])
  have hskipB : setStationCurrent stationB 0 = (stationB, none) :=
    setStationCurrent_skip stationB 0 (by norm_num [stationB])
  rw [hsort,
    distributeCurrentByPriority_cons_small stationA [stationB] 5 (by norm_num),
    distributeCurrentByPriority_cons_small stationB [] 5 (by norm_num),
    hskipA, hskipB, distributeCurrentByPriority_nil]
  norm_num [stationA, stationB]

/-- C9 as amended.  Over two connected stations with ascending priorities,
both currently at 0 A, a budget of at least 6 A and below 12 A, with the
higher-priority station's MaxCurrent at least 6 A: the numerically lower
priority station receives min(budget, MaxCurrent) — e.g. 10 A of the
10 A target — and the other station's limit remains 0 (the residual is
below 6 A); a budget below 6 A leaves both at 0. -/
theorem priority_split_amended (a b : ChargingStation) (B : ℚ)
    (hac : a.isConnected = true) (hbc : b.isConnected = true)
    (hp : a.priority < b.priority)
    (ha0 : a.currentLimit = 0) (hb0 : b.currentLimit = 0)
    (hamax : 6 ≤ a.maxCurrent) (hB6 : 6 ≤ B) (hB12 : B < 12) :
    ((distributeCurrentByPriority (getConnectedStations [a, b]) B).1.map
      (fun s => s.currentLimit)) = [min B a.maxCurrent, 0] := by
  have hsort : getConnectedStations [a, b] = [a, b] := by
    simp [getConnectedStations, List.insertionSort, List.orderedInsert,
      hac, hbc, hp]
  have halloc6 : (6 : ℚ) ≤ min B a.maxCurrent := le_min hB6 hamax
  have hallocB : min B a.maxCurrent ≤ B := min_le_left _ _
  have hwrite : ¬ |min B a.maxCurrent - a.currentLimit| < 1/2 := by
    rw [ha0, sub_zero, abs_of_nonneg (by linarith)]
    intro hcon
    linarith
  have hskipb : setStationCurrent b 0 = (b, none) := by
    apply setStationCurrent_skip
    rw [hb0, sub_zero, abs_zero]
    norm_num
  rw [hsort, distributeCurrentByPriority_cons_alloc a [b] B hB6 hamax,
    setStationCurrent_applied a _ hwrite,
    distributeCurrentByPriority_cons_small b [] _ (by linarith), hskipb,
    distributeCurrentByPriority_nil]
  simp [hb0]

/-- Witness for the amended C9: the reference scenario — priorities 1 and
2, absolute target 10 A — gives station1 10 A and station2 0 A. -/
theorem priority_split_amended_witness :
    ((distributeCurrentByPriority (getConnectedStations [stationA, stationB])
        10).1.map (fun s => s.currentLimit)) =
      [min 10 stationA.maxCurrent, 0] :=
  priority_split_amended stationA stationB 10 rfl rfl
    (by norm_num [stationA, stationB]) rfl rfl
    (by norm_num [stationA]) (by norm_num) (by norm_num)

/-! ## C3: the budget-sum bound of a distribution pass -/

/-- sumLimits on a cons. -/
theorem sumLimits_cons (s : ChargingStation) (l : List ChargingStation) :
    sumLimits (s :: l) = s.currentLimit + sumLimits l := by
  simp [sumLimits]

/-- Absolute-mode bound: with a non-negative budget, the limits after a
pass sum to at most the budget plus the 0.5 A deadband slack per
station. -/
theorem distributeCurrentByPriority_sum_le (l : List ChargingStation)
    (B : ℚ) (hB : 0 ≤ B) :
    sumLimits (distributeCurrentByPriority l B).1 ≤
      B + (l.length : ℚ) * (1/2) := by
  induction l generalizing B with
  | nil =>
    rw [distributeCurrentByPriority_nil]
    simp [sumLimits]
    linarith
  | cons s rest ih =>
    rw [distributeCurrentByPriority_cons_eq]
    have hlen : ((s :: rest).length : ℚ) = (rest.length : ℚ) + 1 := by
      push_cast [List.length_cons]
      ring
    split_ifs with h0 h6 halloc
    · have hhead := setStationCurrent_limit_lt s 0
      have htail := ih B hB
      rw [sumLimits_cons, hlen]
      linarith
    · have hhead := setStationCurrent_limit_lt s 0
      have htail := ih B hB
      rw [sumLimits_cons, hlen]
      linarith
    · have hhead := setStationCurrent_limit_lt s (min B s.maxCurrent)
      have hmin : min B s.maxCurrent ≤ B := min_le_left _ _
      have htail := ih (B - min B s.maxCurrent) (by linarith)
      rw [sumLimits_cons, hlen]
      linarith
    · have hhead := setStationCurrent_limit_lt s 0
      have htail := ih B hB
      rw [sumLimits_cons, hlen]
      linarith

/-- The cons unfolding of distributePositiveDelta, let-free. -/
theorem distributePositiveDelta_cons_eq (s : ChargingStation)
    (rest : List ChargingStation) (r : ℚ) :
    distributePositiveDelta (s :: rest) r =
      if r ≤ 0 then (s :: rest, [])
      else if s.currentLimit = 0 then
        if r ≥ 6 ∧ s.maxCurrent - s.currentLimit ≥ 6 then
          ((setStationCurrent s (min r (s.maxCurrent - s.currentLimit))).1 ::
              (distributePositiveDelta rest
                (r - min r (s.maxCurrent - s.currentLimit))).1,
            (setStationCurrent s
                (min r (s.maxCurrent - s.currentLimit))).2.toList ++
              (distributePositiveDelta rest
                (r - min r (s.maxCurrent - s.currentLimit))).2)
        else (s :: (distributePositiveDelta rest r).1,
          (distributePositiveDelta rest r).2)
      else if s.maxCurrent - s.currentLimit > 0 then
        ((setStationCurrent s
            (s.currentLimit + min r (s.maxCurrent - s.currentLimit))).1 ::
            (distributePositiveDelta rest
              (r - min r (s.maxCurrent - s.currentLimit))).1,
          (setStationCurrent s
              (s.currentLimit + min r (s.maxCurrent - s.currentLimit))).2.toList ++
            (distributePositiveDelta rest
              (r - min r (s.maxCurrent - s.currentLimit))).2)
      else (s :: (distributePositiveDelta rest r).1,
        (distributePositiveDelta rest r).2) := rfl

/-- Positive-delta bound: the sum rises by at most the delta plus the
0.5 A deadband slack per station. -/
theorem distributePositiveDelta_sum_le (l : List ChargingStation)
    (r : ℚ) (hr : 0 ≤ r) :
    sumLimits (distributePositiveDelta l r).1 ≤
      sumLimits l + r + (l.length : ℚ) * (1/2) := by
  induction l generalizing r with
  | nil =>
    show sumLimits [] ≤ sumLimits [] + r + _
    simp [sumLimits]
    linarith
  | cons s rest ih =>
    rw [distributePositiveDelta_cons_eq]
    have hlen : ((s :: rest).length : ℚ) = (rest.length : ℚ) + 1 := by
      push_cast [List.length_cons]
      ring
    have hnn : (0:ℚ) ≤ (rest.length : ℚ) * (1/2) := by positivity
    split_ifs with hbreak h0 hstart hinc
    · rw [hlen]
      linarith
    · rw [sumLimits_cons, sumLimits_cons, hlen, h0, sub_zero]
      have hhead := setStationCurrent_limit_lt s (min r s.maxCurrent)
      have hminr : min r s.maxCurrent ≤ r := min_le_left _ _
      have htail := ih (r - min r s.maxCurrent) (by linarith)
      linarith
    · have htail := ih r hr
      rw [sumLimits_cons, sumLimits_cons, hlen]
      linarith
    · have hhead := setStationCurrent_limit_lt s
        (s.currentLimit + min r (s.maxCurrent - s.currentLimit))
      have hminr : min r (s.maxCurrent - s.currentLimit) ≤ r := min_le_left _ _
      have htail := ih (r - min r (s.maxCurrent - s.currentLimit))
        (by linarith)
      rw [sumLimits_cons, sumLimits_cons, hlen]
      linarith
    · have htail := ih r hr
      rw [sumLimits_cons, sumLimits_cons, hlen]
      linarith

/-- A negative-delta step never raises a station's limit. -/
theorem negativeDeltaStep_limit_le (red T : ℚ) (s : ChargingStation)
    (hred : 0 ≤ red) (hT : 0 < T) :
    (negativeDeltaStep red T s).1.currentLimit ≤ s.currentLimit := by
  unfold negativeDeltaStep
  split_ifs with hpos
  · have hr0 : 0 ≤ red * (s.currentLimit / T) :=
      mul_nonneg hred (div_nonneg hpos.le hT.le)
    have h1 : max 0 (s.currentLimit - red * (s.currentLimit / T)) ≤
        s.currentLimit := max_le hpos.le (by linarith)
    have h2 : (if max 0 (s.currentLimit - red * (s.currentLimit / T)) < 6 ∧
          max 0 (s.currentLimit - red * (s.currentLimit / T)) > 0 then (0:ℚ)
        else max 0 (s.currentLimit - red * (s.currentLimit / T))) ≤
        s.currentLimit := by
      split_ifs with hsnap
      · exact hpos.le
      · exact h1
    calc (setStationCurrent s _).1.currentLimit
        ≤ max _ s.currentLimit := setStationCurrent_limit_le s _
      _ ≤ s.currentLimit := max_le h2 le_rfl
  · exact le_rfl

/-- Negative-delta bound: a proportional reduction pass never raises the
sum of limits. -/
theorem distributeNegativeDelta_sum_le (l : List ChargingStation)
    (red : ℚ) (hred : 0 ≤ red) :
    sumLimits (distributeNegativeDelta l red).1 ≤ sumLimits l := by
  unfold distributeNegativeDelta
  dsimp only
  split_ifs with hzero
  · exact le_rfl
  · have hTnn : (0:ℚ) ≤
        (l.map (fun s => if s.currentLimit > 0 then s.currentLimit else 0)).sum := by
      apply List.sum_nonneg
      intro x hx
      obtain ⟨s, _, rfl⟩ := List.mem_map.mp hx
      split_ifs with h
      · exact le_of_lt h
      · exact le_rfl
    have hT : 0 <
        (l.map (fun s => if s.currentLimit > 0 then s.currentLimit else 0)).sum :=
      lt_of_le_of_ne hTnn (Ne.symm hzero)
    unfold sumLimits
    rw [List.map_map, List.map_map]
    apply List.sum_le_sum
    intro s _
    exact negativeDeltaStep_limit_le red _ s hred hT

/-- Counterexample to C3: an absolute-mode pass over two connected
stations whose prior limits sum to 39.9 A ≤ 40 A, with the regulator
budget 40 A = max_total_current, ends with limits 34 A and 6.4 A, sum
40.4 A > 40 A: the deadband keeps station2 at 6.4 A while 6 A of the
budget was spent on it. -/
theorem budget_sum_cex :
    sumLimits [c3Station1, c3Station2] ≤ 40 ∧
    c3Station1.isConnected = true ∧ c3Station2.isConnected = true ∧
    40 < sumLimits ((distributeCurrentByPriority
      (getConnectedStations [c3Station1, c3Station2]) 40).1) := by
  refine ⟨by norm_num [sumLimits, c3Station1, c3Station2], rfl, rfl, ?_⟩
  have hsort : getConnectedStations [c3Station1, c3Station2] =
      [c3Station1, c3Station2] := by
    simp [getConnectedStations, List.insertionSort, List.orderedInsert,
      c3Station1, c3Station2]
  rw [hsort,
    distributeCurrentByPriority_cons_alloc c3Station1 [c3Station2] 40
      (by norm_num) (by norm_num [c3Station1]),
    distributeCurrentByPriority_cons_alloc c3Station2 [] _
      (by norm_num [c3Station1, min_def]) (by norm_num [c3Station2]),
    distributeCurrentByPriority_nil]
  have hmin1 : min (40:ℚ) c3Station1.maxCurrent = 34 := by
    norm_num [c3Station1, min_def]
  rw [hmin1]
  have hmin2 : min ((40:ℚ) - 34) c3Station2.maxCurrent = 6 := by
    norm_num [c3Station2, min_def]
  rw [hmin2]
  have e1 : (setStationCurrent c3Station1 34).1.currentLimit = 34 := by
    rw [setStationCurrent_applied c3Station1 34
      (by norm_num [c3Station1, abs_lt])]
    simp [c3Station1, min_def]
  have e2 : (setStationCurrent c3Station2 6).1 = c3Station2 := by
    rw [setStationCurrent_skip c3Station2 6 (by norm_num [c3Station2, abs_lt])]
  rw [sumLimits_cons, sumLimits_cons, e1, e2]
  norm_num [sumLimits, c3Station2]

/-- C3 as amended.  The exact bound sum ≤ max_total_current does not
survive the 0.5 A write deadband; what the passes guarantee is: an
absolute-mode pass with non-negative budget leaves the visited stations
summing to at most the budget plus 0.5 A per station; a positive
delta-mode pass raises their sum by at most the delta plus 0.5 A per
station; a negative delta-mode pass never raises the sum. -/
theorem distribution_sum_amended (l : List ChargingStation)
    (B delta red : ℚ) :
    (0 ≤ B → sumLimits (distributeCurrentByPriority l B).1 ≤
      B + (l.length : ℚ) * (1/2)) ∧
    (0 ≤ delta → sumLimits (distributePositiveDelta l delta).1 ≤
      sumLimits l + delta + (l.length : ℚ) * (1/2)) ∧
    (0 ≤ red → sumLimits (distributeNegativeDelta l red).1 ≤ sumLimits l) :=
  ⟨distributeCurrentByPriority_sum_le l B,
   distributePositiveDelta_sum_le l delta,
   distributeNegativeDelta_sum_le l red⟩

/-- Witness for the amended C3 at a concrete two-station pass. -/
theorem distribution_sum_amended_witness :
    sumLimits (distributeCurrentByPriority [c3Station1, c3Station2] 40).1 ≤
      40 + (([c3Station1, c3Station2].length : ℚ)) * (1/2) ∧
    sumLimits (distributeNegativeDelta [c3Station1, c3Station2] 3).1 ≤
      sumLimits [c3Station1, c3Station2] :=
  ⟨(distribution_sum_amended [c3Station1, c3Station2] 40 3 3).1 (by norm_num),
   (distribution_sum_amended [c3Station1, c3Station2] 40 3 3).2.2
     (by norm_num)⟩

/-! ## C2: the freshness watchdog on reachable manager states

The manager only ever stores limits that are 0 or at least 6 A (stInv);
on such states the watchdog's 0 writes always clear the deadband, so a
stale cache really zeroes every station. -/

/-- A write of 0, or of a value in [6 A, MaxCurrent], preserves stInv. -/
theorem setStationCurrent_stInv (s : ChargingStation) (c : ℚ)
    (hs : stInv s) (hc : c = 0 ∨ (6 ≤ c ∧ c ≤ s.maxCurrent)) :
    stInv (setStationCurrent s c).1 := by
  obtain ⟨hmax, hle, hz⟩ := hs
  unfold setStationCurrent
  split_ifs with h
  · exact ⟨hmax, hle, hz⟩
  · rw [SetCurrentLimit_eq]
    rcases hc with rfl | ⟨h6, hcle⟩
    · exact ⟨hmax, min_le_right _ _, Or.inl (min_eq_left hmax)⟩
    · refine ⟨hmax, min_le_right _ _, Or.inr ?_⟩
      rw [min_eq_left hcle]
      exact h6

/-- An absolute-mode pass preserves stInv on every station it returns. -/
theorem distributeCurrentByPriority_stInv (l : List ChargingStation) (B : ℚ)
    (hl : ∀ s ∈ l, stInv s) :
    ∀ t ∈ (distributeCurrentByPriority l B).1, stInv t := by
  induction l generalizing B with
  | nil =>
    rw [distributeCurrentByPriority_nil]
    intro t ht
    cases ht
  | cons s rest ih =>
    have hs := hl s (List.mem_cons_self s rest)
    have hrest : ∀ u ∈ rest, stInv u :=
      fun u hu => hl u (List.mem_cons_of_mem s hu)
    rw [distributeCurrentByPriority_cons_eq]
    split_ifs with h0 h6 halloc <;> intro t ht <;>
      rcases List.mem_cons.mp ht with rfl | hmem
    · exact setStationCurrent_stInv s 0 hs (Or.inl rfl)
    · exact ih B hrest t hmem
    · exact setStationCurrent_stInv s 0 hs (Or.inl rfl)
    · exact ih B hrest t hmem
    · exact setStationCurrent_stInv s (min B s.maxCurrent) hs
        (Or.inr ⟨halloc, min_le_right _ _⟩)
    · exact ih (B - min B s.maxCurrent) hrest t hmem
    · exact setStationCurrent_stInv s 0 hs (Or.inl rfl)
    · exact ih B hrest t hmem

/-- A positive-delta pass preserves stInv on every station it returns. -/
theorem distributePositiveDelta_stInv (l : List ChargingStation) (r : ℚ)
    (hl : ∀ s ∈ l, stInv s) :
    ∀ t ∈ (distributePositiveDelta l r).1, stInv t := by
  induction l generalizing r with
  | nil =>
    intro t ht
    cases ht
  | cons s rest ih =>
    have hs := hl s (List.mem_cons_self s rest)
    have hrest : ∀ u ∈ rest, stInv u :=
      fun u hu => hl u (List.mem_cons_of_mem s hu)
    rw [distributePositiveDelta_cons_eq]
    split_ifs with hbreak h0 hstart hinc <;> intro t ht <;>
      rcases List.mem_cons.mp ht with rfl | hmem
    · exact hs
    · exact hl t (List.mem_cons_of_mem s hmem)
    · refine setStationCurrent_stInv s _ hs (Or.inr ⟨?_, ?_⟩)
      · exact le_min hstart.1 hstart.2
      · calc min r (s.maxCurrent - s.currentLimit)
            ≤ s.maxCurrent - s.currentLimit := min_le_right _ _
          _ ≤ s.maxCurrent := by rw [h0]; linarith
    · exact ih (r - min r (s.maxCurrent - s.currentLimit)) hrest t hmem
    · exact hs
    · exact ih r hrest t hmem
    · have h6 : 6 ≤ s.currentLimit := by
        rcases hs.2.2 with hz | h6
        · exact absurd hz h0
        · exact h6
      have hallocpos : 0 < min r (s.maxCurrent - s.currentLimit) :=
        lt_min (by linarith [not_le.mp hbreak]) hinc
      refine setStationCurrent_stInv s _ hs (Or.inr ⟨by linarith, ?_⟩)
      have := min_le_right r (s.maxCurrent - s.currentLimit)
      linarith
    · exact ih (r - min r (s.maxCurrent - s.currentLimit)) hrest t hmem
    · exact hs
    · exact ih r hrest t hmem

/-- A negative-delta per-station step preserves stInv. -/
theorem negativeDeltaStep_stInv (red T : ℚ) (s : ChargingStation)
    (hred : 0 ≤ red) (hT : 0 < T) (hs : stInv s) :
    stInv (negativeDeltaStep red T s).1 := by
  unfold negativeDeltaStep
  split_ifs with hpos
  · have hr0 : 0 ≤ red * (s.currentLimit / T) :=
      mul_nonneg hred (div_nonneg hpos.le hT.le)
    apply setStationCurrent_stInv s _ hs
    set n0 := max 0 (s.currentLimit - red * (s.currentLimit / T)) with hn0
    have hn0nn : 0 ≤ n0 := le_max_left _ _
    have hn0le : n0 ≤ s.currentLimit := max_le hpos.le (by linarith)
    split_ifs with hsnap
    · exact Or.inl rfl
    · rcases lt_or_le n0 6 with hlt | hge
      · have : ¬ n0 > 0 := fun hgt => hsnap ⟨hlt, hgt⟩
        exact Or.inl (le_antisymm (not_lt.mp this) hn0nn)
      · exact Or.inr ⟨hge, le_trans hn0le hs.2.1⟩
  · exact hs

/-- A negative-delta pass preserves stInv on every station it returns. -/
theorem distributeNegativeDelta_stInv (l : List ChargingStation) (red : ℚ)
    (hred : 0 ≤ red) (hl : ∀ s ∈ l, stInv s) :
    ∀ t ∈ (distributeNegativeDelta l red).1, stInv t := by
  unfold distributeNegativeDelta
  dsimp only
  split_ifs with hzero
  · exact hl
  · have hTnn : (0:ℚ) ≤
        (l.map (fun s => if s.currentLimit > 0 then s.currentLimit else 0)).sum := by
      apply List.sum_nonneg
      intro x hx
      obtain ⟨s, _, rfl⟩ := List.mem_map.mp hx
      split_ifs with h
      · exact le_of_lt h
      · exact le_rfl
    have hT : 0 <
        (l.map (fun s => if s.currentLimit > 0 then s.currentLimit else 0)).sum :=
      lt_of_le_of_ne hTnn (Ne.symm hzero)
    intro t ht
    rw [List.map_map] at ht
    obtain ⟨s, hsl, rfl⟩ := List.mem_map.mp ht
    exact negativeDeltaStep_stInv red _ s hred hT (hl s hsl)

/-- applyCurrentDelta preserves stInv on every station it returns. -/
theorem applyCurrentDelta_stInv (l : List ChargingStation) (delta : ℚ)
    (hl : ∀ s ∈ l, stInv s) :
    ∀ t ∈ (applyCurrentDelta l delta).1, stInv t := by
  unfold applyCurrentDelta
  split_ifs with hsmall hpos
  · exact hl
  · exact distributePositiveDelta_stInv l delta hl
  · exact distributeNegativeDelta_stInv l (-delta)
      (by linarith [not_lt.mp hpos]) hl

/-- The let-free unfolding of stopAllCharging. -/
theorem stopAllCharging_eq (l : List ChargingStation) :
    stopAllCharging l =
      ((l.map (fun s =>
          if s.currentLimit > 0 then setStationCurrent s 0 else (s, none))).map
            Prod.fst,
        (l.map (fun s =>
          if s.currentLimit > 0 then setStationCurrent s 0 else
            (s, none))).filterMap Prod.snd) := rfl

/-- stopAllCharging preserves stInv on every station it returns. -/
theorem stopAllCharging_stInv (l : List ChargingStation)
    (hl : ∀ s ∈ l, stInv s) :
    ∀ t ∈ (stopAllCharging l).1, stInv t := by
  rw [stopAllCharging_eq]
  intro t ht
  rw [List.map_map] at ht
  obtain ⟨s, hsl, rfl⟩ := List.mem_map.mp ht
  simp only [Function.comp_apply]
  split_ifs with hpos
  · exact setStationCurrent_stInv s 0 (hl s hsl) (Or.inl rfl)
  · exact hl s hsl

/-- On an stInv state, stopAllCharging really zeroes every limit: a
positive limit is at least 6 A, so the 0 write clears the deadband and is
stored unclamped. -/
theorem stopAllCharging_zeroes (l : List ChargingStation)
    (hl : ∀ s ∈ l, stInv s) :
    ∀ t ∈ (stopAllCharging l).1, t.currentLimit = 0 := by
  rw [stopAllCharging_eq]
  intro t ht
  rw [List.map_map] at ht
  obtain ⟨s, hsl, rfl⟩ := List.mem_map.mp ht
  obtain ⟨hmax, hle, hz⟩ := hl s hsl
  simp only [Function.comp_apply]
  split_ifs with hpos
  · have h6 : 6 ≤ s.currentLimit := by
      rcases hz with hz | h6
      · exact absurd hz (ne_of_gt hpos)
      · exact h6
    have hcond : ¬ |0 - s.currentLimit| < 1/2 := by
      rw [zero_sub, abs_neg, abs_of_nonneg (by linarith)]
      intro hcon
      linarith
    rw [setStationCurrent_applied s 0 hcond]
    exact min_eq_left hmax
  · rcases hz with hz | h6
    · exact hz
    · exact absurd (by linarith : (0:ℚ) < s.currentLimit) hpos

/-- Membership in the sorted connected slice implies membership in the
map. -/
theorem getConnectedStations_subset (l : List ChargingStation) :
    ∀ t ∈ getConnectedStations l, t ∈ l := by
  intro t ht
  unfold getConnectedStations at ht
  rw [(List.perm_insertionSort _ _).mem_iff] at ht
  exact (List.mem_filter.mp ht).1

/-- Merging pass results back into the map preserves stInv. -/
theorem mergeUpdated_stInv (all upd : List ChargingStation)
    (hall : ∀ s ∈ all, stInv s) (hupd : ∀ s ∈ upd, stInv s) :
    ∀ t ∈ mergeUpdated all upd, stInv t := by
  unfold mergeUpdated
  intro t ht
  obtain ⟨s, hsl, rfl⟩ := List.mem_map.mp ht
  cases hfind : upd.find? (fun u => u.id == s.id) with
  | none => exact hall s hsl
  | some u => exact hupd u (List.mem_of_find?_eq_some hfind)

/-- The session adapter's flag writes preserve stInv. -/
theorem setFlags_stInv (s : ChargingStation) (b : Bool) (now : ℚ)
    (hs : stInv s) :
    stInv (s.SetConnected b now) ∧ stInv (s.SetCharging b) := by
  constructor
  · unfold ChargingStation.SetConnected
    split_ifs <;> exact hs
  · exact hs

/-- The let-free unfolding of checkDataFreshness on populated cells. -/
theorem checkDataFreshness_some_eq (now : ℚ)
    (stations : List ChargingStation) (p gts : ℚ) (b : Bool) (hts : ℚ)
    (reg : DeltaState) :
    checkDataFreshness now
      { stations := stations, gridData := some (p, gts),
        hphcState := some (b, hts), regulator := reg } =
      if now - gts > 300 then
        ({ stations := (stopAllCharging stations).1,
           gridData := some (p, gts), hphcState := some (b, hts),
           regulator := DeltaRegulator.reset reg }, (stopAllCharging stations).2)
      else if now - hts > 300 then
        ({ stations := (stopAllCharging stations).1,
           gridData := some (p, gts), hphcState := some (b, hts),
           regulator := DeltaRegulator.reset reg }, (stopAllCharging stations).2)
      else
        ({ stations := stations, gridData := some (p, gts),
           hphcState := some (b, hts), regulator := reg }, []) := rfl

/-- The RegulationInput the manager builds from a populated snapshot. -/
def managerInput (cfg : ManagerConfig) (stations : List ChargingStation)
    (p gts : ℚ) (b : Bool) : RegulationInput :=
  { gridPower := p, currentCharging := getCurrentTotalCharging stations,
    isOffPeak := b, maxCurrent := cfg.maxTotalCurrent,
    maxHousePower := cfg.maxHousePower, targetPower := cfg.gridTargetPower,
    timestamp := gts }

/-- The let-free unfolding of updateChargingLimitsInternal on populated
cells. -/
theorem updateChargingLimitsInternal_some_eq (rexp : ℚ → ℚ)
    (cfg : ManagerConfig) (now : ℚ) (stations : List ChargingStation)
    (p gts : ℚ) (b : Bool) (hts : ℚ) (reg : DeltaState) :
    updateChargingLimitsInternal rexp cfg now
      { stations := stations, gridData := some (p, gts),
        hphcState := some (b, hts), regulator := reg } =
      if now - gts > 300 ∨ now - hts > 300 then
        ({ stations := (stopAllCharging stations).1,
           gridData := some (p, gts), hphcState := some (b, hts),
           regulator := DeltaRegulator.reset reg }, (stopAllCharging stations).2)
      else if getConnectedStations stations = [] then
        ({ stations := stations, gridData := some (p, gts),
           hphcState := some (b, hts),
           regulator := (DeltaRegulator.Calculate rexp cfg.deltaConfig
             (managerInput cfg stations p gts b) reg).2 }, [])
      else if (DeltaRegulator.Calculate rexp cfg.deltaConfig
          (managerInput cfg stations p gts b) reg).1.deltaCurrent ≠ 0 then
        if ¬(DeltaRegulator.Calculate rexp cfg.deltaConfig
              (managerInput cfg stations p gts b) reg).1.shouldCharge ∧
            getCurrentTotalCharging stations > 0 then
          ({ stations := (stopAllCharging stations).1,
             gridData := some (p, gts), hphcState := some (b, hts),
             regulator := (DeltaRegulator.Calculate rexp cfg.deltaConfig
               (managerInput cfg stations p gts b) reg).2 },
            (stopAllCharging stations).2)
        else
          ({ stations := mergeUpdated stations
               (applyCurrentDelta (getConnectedStations stations)
                 (DeltaRegulator.Calculate rexp cfg.deltaConfig
                   (managerInput cfg stations p gts b) reg).1.deltaCurrent).1,
             gridData := some (p, gts), hphcState := some (b, hts),
             regulator := (DeltaRegulator.Calculate rexp cfg.deltaConfig
               (managerInput cfg stations p gts b) reg).2 },
            (applyCurrentDelta (getConnectedStations stations)
              (DeltaRegulator.Calculate rexp cfg.deltaConfig
                (managerInput cfg stations p gts b) reg).1.deltaCurrent).2)
      else
        if (DeltaRegulator.Calculate rexp cfg.deltaConfig
            (managerInput cfg stations p gts b) reg).1.targetCurrent ≤ 0 then
          ({ stations := (stopAllCharging stations).1,
             gridData := some (p, gts), hphcState := some (b, hts),
             regulator := (DeltaRegulator.Calculate rexp cfg.deltaConfig
               (managerInput cfg stations p gts b) reg).2 },
            (stopAllCharging stations).2)
        else
          ({ stations := mergeUpdated stations
               (distributeCurrentByPriority (getConnectedStations stations)
                 (DeltaRegulator.Calculate rexp cfg.deltaConfig
                   (managerInput cfg stations p gts b) reg).1.targetCurrent).1,
             gridData := some (p, gts), hphcState := some (b, hts),
             regulator := (DeltaRegulator.Calculate rexp cfg.deltaConfig
               (managerInput cfg stations p gts b) reg).2 },
            (distributeCurrentByPriority (getConnectedStations stations)
              (DeltaRegulator.Calculate rexp cfg.deltaConfig
                (managerInput cfg stations p gts b) reg).1.targetCurrent).2) :=
  rfl

/-- updateChargingLimitsInternal preserves stInv on every station. -/
theorem updateChargingLimitsInternal_stInv (rexp : ℚ → ℚ)
    (cfg : ManagerConfig) (now : ℚ) (m : ManagerState)
    (hm : ∀ s ∈ m.stations, stInv s) :
    ∀ t ∈ (updateChargingLimitsInternal rexp cfg now m).1.stations,
      stInv t := by
  obtain ⟨stations, gd, hphc, reg⟩ := m
  cases gd with
  | none => exact hm
  | some pr =>
    obtain ⟨p, gts⟩ := pr
    cases hphc with
    | none => exact hm
    | some qr =>
      obtain ⟨b, hts⟩ := qr
      rw [updateChargingLimitsInternal_some_eq]
      have hconnInv : ∀ s ∈ getConnectedStations stations, stInv s :=
        fun s hs => hm s (getConnectedStations_subset stations s hs)
      split_ifs with hstale hempty hdelta hstop htarget
      · exact stopAllCharging_stInv stations hm
      · exact hm
      · exact stopAllCharging_stInv stations hm
      · exact mergeUpdated_stInv stations _ hm
          (applyCurrentDelta_stInv (getConnectedStations stations) _ hconnInv)
      · exact stopAllCharging_stInv stations hm
      · exact mergeUpdated_stInv stations _ hm
          (distributeCurrentByPriority_stInv (getConnectedStations stations) _
            hconnInv)

/-- checkDataFreshness preserves stInv on every station. -/
theorem checkDataFreshness_stInv (now : ℚ) (m : ManagerState)
    (hm : ∀ s ∈ m.stations, stInv s) :
    ∀ t ∈ (checkDataFreshness now m).1.stations, stInv t := by
  obtain ⟨stations, gd, hphc, reg⟩ := m
  cases gd with
  | none => exact hm
  | some pr =>
    obtain ⟨p, gts⟩ := pr
    cases hphc with
    | none => exact hm
    | some qr =>
      obtain ⟨b, hts⟩ := qr
      rw [checkDataFreshness_some_eq]
      split_ifs with h1 h2
      · exact stopAllCharging_stInv stations hm
      · exact stopAllCharging_stInv stations hm
      · exact hm

/-- Every reachable manager state satisfies the per-station invariant:
stored limits are 0 or at least 6 A, non-negative station bounds, limits
within bounds. -/
theorem ManagerReach_stInv (cfg : ManagerConfig) (m : ManagerState)
    (h : ManagerReach cfg m) : ∀ s ∈ m.stations, stInv s := by
  induction h with
  | init t0 =>
    intro s hs
    rcases List.mem_cons.mp hs with rfl | hs2
    · exact ⟨by norm_num [NewChargingStation], by norm_num [NewChargingStation],
        Or.inl rfl⟩
    rcases List.mem_cons.mp hs2 with rfl | hs3
    · exact ⟨by norm_num [NewChargingStation], by norm_num [NewChargingStation],
        Or.inl rfl⟩
    · cases hs3
  | step hreach hstep ih =>
    cases hstep with
    | grid p now rexp m =>
      exact updateChargingLimitsInternal_stInv rexp cfg now _ ih
    | tariff b now m => exact ih
    | tick now m => exact checkDataFreshness_stInv now _ ih
    | connect id b now m =>
      intro t ht
      obtain ⟨s, hsl, rfl⟩ := List.mem_map.mp ht
      split_ifs with hid
      · exact (setFlags_stInv s b now (ih s hsl)).1
      · exact ih s hsl
    | charging id b m =>
      intro t ht
      obtain ⟨s, hsl, rfl⟩ := List.mem_map.mp ht
      split_ifs with hid
      · exact (setFlags_stInv s b 0 (ih s hsl)).2
      · exact ih s hsl

/-- C2.  On every reachable manager state, if the grid-power cell's
timestamp (or the tariff cell's) is more than 5 minutes (300 s) old, then
after the next watchdog tick every station's current limit is 0 and the
regulator state is exactly the reset of the previous one (previous error
and integral zeroed, reset counter bumped). -/
theorem watchdog_stops_all_charging (cfg : ManagerConfig) (m : ManagerState)
    (now p gts : ℚ) (b : Bool) (hts : ℚ)
    (hreach : ManagerReach cfg m)
    (hgrid : m.gridData = some (p, gts))
    (htariff : m.hphcState = some (b, hts))
    (hstale : now - gts > 300 ∨ now - hts > 300) :
    (∀ s ∈ (checkDataFreshness now m).1.stations, s.currentLimit = 0) ∧
    (checkDataFreshness now m).1.regulator = DeltaRegulator.reset m.regulator
    := by
  have hm := ManagerReach_stInv cfg m hreach
  obtain ⟨stations, gd, hphc, reg⟩ := m
  cases hgrid
  cases htariff
  rw [checkDataFreshness_some_eq]
  by_cases h1 : now - gts > 300
  · rw [if_pos h1]
    exact ⟨stopAllCharging_zeroes stations hm, rfl⟩
  · rcases hstale with h | h
    · exact absurd h h1
    · rw [if_neg h1, if_pos h]
      exact ⟨stopAllCharging_zeroes stations hm, rfl⟩

/-- Witness for C2: the freshly initialised manager (both cells stamped
at t = 0) ticked at t = 400 s. -/
theorem watchdog_stops_all_charging_witness :
    (∀ s ∈ (checkDataFreshness 400
        { stations := [NewChargingStation "station1"
            exManagerConfig.station1Priority 32,
          NewChargingStation "station2" exManagerConfig.station2Priority 32],
          gridData := some (0, 0), hphcState := some (false, 0),
          regulator := NewDeltaRegulator 0 }).1.stations,
      s.currentLimit = 0) ∧
    (checkDataFreshness 400
        { stations := [NewChargingStation "station1"
            exManagerConfig.station1Priority 32,
          NewChargingStation "station2" exManagerConfig.station2Priority 32],
          gridData := some (0, 0), hphcState := some (false, 0),
          regulator := NewDeltaRegulator 0 }).1.regulator =
      DeltaRegulator.reset (NewDeltaRegulator 0) :=
  watchdog_stops_all_charging exManagerConfig _ 400 0 0 false 0
    (ManagerReach.init 0) rfl rfl (Or.inl (by norm_num))

end EnergyCenter
